import Mathlib

/-!
Verification of the accounting core of the `presupuestos` repository
(`src/cuadro_contable/`): chart of accounts (`Cuadro`), accounts (`Cuenta`),
journal entries (`Asiento`), movements (`Movimiento`), balance validation
(`Asiento::validar`), ledger aggregation (`Cuenta::mayorizar_cuenta`) and the
PGC classification function (`masa::interpretar_codigo`).

Modelling conventions:
* Monetary amounts (Rust `f64`) are modelled as exact rationals `ℚ`.
* Dates (`chrono::NaiveDate`) are modelled as integers (day numbers); the
  ambient clock (`offset::Local::now()`) becomes an explicit `hoy` argument.
* Rust `Vec` mutation becomes explicit state passing; fallible operations
  return the new state together with an `Option CuadroError`.
-/

/-- Dates (`chrono::NaiveDate`) modelled abstractly as day numbers. -/
abbrev Fecha := Int

/-- Monetary amounts (`f64`) modelled as exact rationals. -/
abbrev Importe := ℚ

/-- `(importe * 100.00).round()` from `Asiento::validar`: the amount in
cents, rounded to the nearest integer with halves away from zero
(`f64::round` semantics).  Computed directly on the exact rational
`x = num/den`: `x * 100 = (100 * num) / den`, and for `0 ≤ n` the value
`round(n/d)` is `(2*n + d) / (2*d)` over integer floor division. -/
def roundCents (x : ℚ) : ℤ :=
  let n : ℤ := 100 * x.num
  let d : ℤ := (x.den : ℤ)
  if 0 ≤ n then (2 * n + d) / (2 * d) else -((2 * (-n) + d) / (2 * d))

/-- `Movimiento` (src/cuadro_contable/movimiento.rs): an amount together with
the code and (denormalized) name of the account it references. -/
structure Movimiento where
  importe : Importe
  codigo_cuenta : String
  nombre_cuenta : String
deriving DecidableEq

/-- `Asiento` (src/cuadro_contable/asiento.rs): a journal entry. -/
structure Asiento where
  debe : List Movimiento
  haber : List Movimiento
  concepto : String
  fecha : Fecha
  codigo : String
deriving DecidableEq

/-- `Cuenta` (src/cuadro_contable/cuenta.rs): an account. -/
structure Cuenta where
  nombre : String
  codigo : String
  debe : List Importe
  haber : List Importe
  saldo : Importe
deriving DecidableEq

/-- `Cuadro` (src/cuadro_contable/mod.rs): account registry plus journal. -/
structure Cuadro where
  cuentas : List Cuenta
  libro_diario : List Asiento
deriving DecidableEq

/-- `CuadroError` (src/cuadro_contable/mod.rs). -/
inductive CuadroError where
  | CuadroNoVacio : CuadroError
  | CuentaDuplicada : String → CuadroError
deriving DecidableEq

namespace Asiento

/-- `Asiento::new`: fresh entry dated today (`hoy`), empty sides, empty code. -/
def new (concepto : String) (hoy : Fecha) : Asiento :=
  { concepto := concepto, fecha := hoy, debe := [], haber := [], codigo := "" }

/-- `Asiento::fecha(Option<NaiveDate>)`: sets the date when given one
(the Rust method also returns it; only the state effect is modelled). -/
def setFecha (a : Asiento) (f : Option Fecha) : Asiento :=
  match f with
  | some f => { a with fecha := f }
  | none => a

/-- `Asiento::codigo(Option<String>)`: sets the code when given one. -/
def setCodigo (a : Asiento) (c : Option String) : Asiento :=
  match c with
  | some c => { a with codigo := c }
  | none => a

/-- `Asiento::insertar_debe`. -/
def insertar_debe (a : Asiento) (m : Movimiento) : Asiento :=
  { a with debe := a.debe ++ [m] }

/-- `Asiento::insertar_haber`. -/
def insertar_haber (a : Asiento) (m : Movimiento) : Asiento :=
  { a with haber := a.haber ++ [m] }

/-- `Iterator::reduce(|a, b| a + b)`: `none` on an empty list, otherwise the
left fold of `+` starting from the first element. -/
def reduceSuma (l : List ℤ) : Option ℤ :=
  match l with
  | [] => none
  | x :: xs => some (xs.foldl (fun a b => a + b) x)

/-- `Asiento::validar`: maps each side to rounded cents, reduces with `+`,
and compares the two `Option` results. -/
def validar (a : Asiento) : Bool :=
  let debe_reducido : Option ℤ :=
    reduceSuma (a.debe.map (fun element => roundCents element.importe))
  let haber_reducido : Option ℤ :=
    reduceSuma (a.haber.map (fun element => roundCents element.importe))
  decide (debe_reducido = haber_reducido)

end Asiento

namespace Cuenta

/-- `Cuenta::new`: zero balance, empty sides. -/
def new (nombre codigo : String) : Cuenta :=
  { nombre := nombre, codigo := codigo, debe := [], haber := [], saldo := 0 }

/-- `Cuenta::incrementar_saldo`. -/
def incrementar_saldo (c : Cuenta) (importe : Importe) : Cuenta :=
  { c with saldo := c.saldo + importe }

/-- `Cuenta::reducir_saldo`. -/
def reducir_saldo (c : Cuenta) (importe : Importe) : Cuenta :=
  { c with saldo := c.saldo - importe }

/-- One debit movement scanned by `mayorizar_cuenta`: if the movement
references this account, push its amount on `debe` and add it to the balance. -/
def pasoDebe (s : Cuenta) (m : Movimiento) : Cuenta :=
  if s.codigo = m.codigo_cuenta then
    incrementar_saldo { s with debe := s.debe ++ [m.importe] } m.importe
  else s

/-- One credit movement scanned by `mayorizar_cuenta`. -/
def pasoHaber (s : Cuenta) (m : Movimiento) : Cuenta :=
  if s.codigo = m.codigo_cuenta then
    reducir_saldo { s with haber := s.haber ++ [m.importe] } m.importe
  else s

/-- `Cuenta::mayorizar_cuenta`: reset `debe`, `haber`, `saldo`, then replay
the whole journal, scanning each entry's debit side then its credit side. -/
def mayorizar_cuenta (c : Cuenta) (libro_diario : List Asiento) : Cuenta :=
  let c0 := { c with debe := ([] : List Importe), haber := ([] : List Importe), saldo := (0 : Importe) }
  libro_diario.foldl
    (fun s asiento => asiento.haber.foldl pasoHaber (asiento.debe.foldl pasoDebe s))
    c0

end Cuenta

namespace Cuadro

/-- `Cuadro::new`. -/
def new : Cuadro := { cuentas := [], libro_diario := [] }

/-- `Cuadro::find_cuenta`: first account whose code equals the argument. -/
def find_cuenta (q : Cuadro) (codigo_cuenta : String) : Option Cuenta :=
  q.cuentas.find? (fun c => codigo_cuenta == c.codigo)

/-- `Cuadro::crear_cuenta`: fails with `CuentaDuplicada` when the code is
already registered, otherwise pushes a fresh account. -/
def crear_cuenta (q : Cuadro) (nombre_cuenta codigo_cuenta : String) :
    Cuadro × Option CuadroError :=
  match q.find_cuenta codigo_cuenta with
  | some c => (q, some (CuadroError.CuentaDuplicada (c.codigo ++ " ~ " ++ c.nombre)))
  | none => ({ q with cuentas := q.cuentas ++ [Cuenta.new nombre_cuenta codigo_cuenta] }, none)

end Cuadro

namespace Movimiento

/-- Modelled from the spec: `Movimiento::hidratar_cuenta` is called by
`Cuadro::crear_asiento` but absent from the sources (movimiento.rs is an
earlier iteration of the file); per the spec, posting resolves the referenced
account and denormalizes its name into the movement.  The movement is left
unchanged when the code resolves to no account. -/
def hidratar_cuenta (m : Movimiento) (q : Cuadro) : Movimiento :=
  match q.find_cuenta m.codigo_cuenta with
  | some c => { m with nombre_cuenta := c.nombre }
  | none => m

end Movimiento

namespace Cuadro

/-- The entry built by `Cuadro::crear_asiento` before insertion: a fresh
entry with the given concept, the given date (today when absent), the given
code, and the given movements hydrated against the registry in order. -/
def nuevoAsiento (q : Cuadro) (concepto : String) (fecha : Option Fecha)
    (debe haber : List Movimiento) (codigo : String) (hoy : Fecha) : Asiento :=
  let asiento := ((Asiento.new concepto hoy).setFecha fecha).setCodigo (some codigo)
  let asiento := debe.foldl (fun a m => a.insertar_debe (m.hidratar_cuenta q)) asiento
  haber.foldl (fun a m => a.insertar_haber (m.hidratar_cuenta q)) asiento

end Cuadro

/-- `Iterator::position`: index of the first element satisfying the
predicate, if any. -/
def posicion {α : Type} (p : α → Bool) : List α → Option Nat
  | [] => none
  | a :: resto => if p a then some 0 else (posicion p resto).map (fun i => i + 1)

namespace Cuadro

/-- `Cuadro::crear_asiento`: build the entry, then insert it in the journal;
when an entry with the same code exists, remove the first such entry and push
the new one at the end, otherwise just push. -/
def crear_asiento (q : Cuadro) (concepto : String) (fecha : Option Fecha)
    (debe haber : List Movimiento) (codigo : String) (hoy : Fecha) : Cuadro :=
  let asiento := q.nuevoAsiento concepto fecha debe haber codigo hoy
  match posicion (fun v => v.codigo == codigo) q.libro_diario with
  | some r => { q with libro_diario := q.libro_diario.eraseIdx r ++ [asiento] }
  | none => { q with libro_diario := q.libro_diario ++ [asiento] }

/-- `Cuadro::print_libro_mayor` (state effect only): aggregates every
account against the journal. -/
def print_libro_mayor (q : Cuadro) : Cuadro :=
  { q with cuentas := q.cuentas.map (fun c => c.mayorizar_cuenta q.libro_diario) }

end Cuadro

/-- The 902 predefined (name, code) pairs of the Plan General de Contabilidad,
transcribed from the constant CUENTAS_PGC. -/
def CUENTAS_PGC : List (String × String) := [
  ("CAPITAL", "10"),
  ("Capital social", "100"),
  ("Fondo social", "101"),
  ("Capital", "102"),
  ("Socios por desembolsos no exigidos", "103"),
  ("Socios por desembolsos no exigidos, capital social", "1030"),
  ("Socios por desembolsos no exigidos, capital pendiente de inscripción", "1034"),
  ("Socios por aportaciones no dinerarias pendientes", "104"),
  ("Socios por aportaciones no dinerarias pendientes, capital social", "1040"),
  ("Socios por aportaciones no dinerarias pendientes, capital pendiente de inscripción", "1044"),
  ("Acciones o participaciones propias en situaciones especiales", "108"),
  ("Acciones o participaciones propias para reducción de capital", "109"),
  ("RESERVAS Y OTROS INSTRUMENTOS DE PATRIMONIO", "11"),
  ("Prima de emisión o asunción", "110"),
  ("Otros instrumentos de patrimonio neto", "111"),
  ("Patrimonio neto por emisión de instrumentos financieros compuestos", "1110"),
  ("Resto de instrumentos de patrimonio neto", "1111"),
  ("Reserva legal", "112"),
  ("Reservas voluntarias", "113"),
  ("Reservas especiales", "114"),
  ("Reservas para acciones o participaciones de la sociedad dominante", "1140"),
  ("Reserva por capital amortizado", "1142"),
  ("Reserva por fondo de comercio", "1143"),
  ("Reservas por acciones propias aceptadas en garantía", "1144"),
  ("Reservas por pérdidas y ganancias actuariales y otros ajustes", "115"),
  ("Aportaciones de socios o propietarios", "118"),
  ("Diferencias por ajuste del capital a euros", "119"),
  ("RESULTADOS PENDIENTES DE APLICACIÓN", "12"),
  ("Remanente", "120"),
  ("Resultados negativos de ejercicios anteriores", "121"),
  ("Resultado del ejercicio", "129"),
  ("SUBVENCIONES, DONACIONES Y AJUSTES POR CAMBIOS DE VALOR", "13"),
  ("Subvenciones oficiales de capital", "130"),
  ("Donaciones y legados de capital", "131"),
  ("Otras subvenciones, donaciones y legados", "132"),
  ("Ajustes por valoración en activos financieros a valor razonable con cambios en el patrimonio neto", "133"),
  ("Operaciones de cobertura", "134"),
  ("Cobertura de flujos de efectivo", "1340"),
  ("Cobertura de una inversión neta en un negocio en el extranjero", "1341"),
  ("Diferencias de conversión", "135"),
  ("Ajustes por valoración en activos no corrientes y grupos enajenables de elementos, mantenidos para la venta", "136"),
  ("Ingresos fiscales a distribuir en varios ejercicios", "137"),
  ("Ingresos fiscales por diferencias permanentes a distribuir en varios ejercicios", "1370"),
  ("Ingresos fiscales por deducciones y bonificaciones a distribuir en varios ejercicios", "1371"),
  ("PROVISIONES", "14"),
  ("Provisión por retribuciones a largo plazo al personal", "140"),
  ("Provisión para impuestos", "141"),
  ("Provisión para otras responsabilidades", "142"),
  ("Provisión por desmantelamiento, retiro o rehabilitación del inmovilizado", "143"),
  ("Provisión para actuaciones medioambientales", "145"),
  ("Provisión para reestructuraciones", "146"),
  ("Provisión por transacciones con pagos basados en instrumentos de patrimonio", "147"),
  ("DEUDAS A LARGO PLAZO CON CARACTERÍSTICAS ESPECIALES", "15"),
  ("Acciones o participaciones a largo plazo consideradas como pasivos financieros", "150"),
  ("Desembolsos no exigidos por acciones o participaciones consideradas como pasivos financieros", "153"),
  ("Desembolsos no exigidos, empresas del grupo", "1533"),
  ("Desembolsos no exigidos, empresas asociadas", "1534"),
  ("Desembolsos no exigidos, otras partes vinculadas", "1535"),
  ("Otros desembolsos no exigidos", "1536"),
  ("Aportaciones no dinerarias pendientes por acciones o participaciones consideradas como pasivos financieros", "154"),
  ("Aportaciones no dinerarias pendientes, empresas del grupo", "1543"),
  ("Aportaciones no dinerarias pendientes, empresas asociadas", "1544"),
  ("Aportaciones no dinerarias pendientes, otras partes vinculadas", "1545"),
  ("Otras aportaciones no dinerarias pendientes", "1546"),
  ("DEUDAS A LARGO PLAZO CON PARTES VINCULADAS", "16"),
  ("Deudas a largo plazo con entidades de crédito vinculadas", "160"),
  ("Deudas a largo plazo con entidades de crédito, empresas del grupo", "1603"),
  ("Deudas a largo plazo con entidades de crédito, empresas asociadas", "1604"),
  ("Deudas a largo plazo con otras entidades de crédito vinculadas", "1605"),
  ("Proveedores de inmovilizado a largo plazo, partes vinculadas", "161"),
  ("Proveedores de inmovilizado a largo plazo, empresas del grupo", "1613"),
  ("Proveedores de inmovilizado a largo plazo, empresas asociadas", "1614"),
  ("Proveedores de inmovilizado a largo plazo, otras partes vinculadas", "1615"),
  ("Acreedores por arrendamiento financiero a largo plazo, partes vinculadas", "162"),
  ("Acreedores por arrendamiento financiero a largo plazo, empresas de grupo", "1623"),
  ("Acreedores por arrendamiento financiero a largo plazo, empresas asociadas", "1624"),
  ("Acreedores por arrendamiento financiero a largo plazo, otras partes vinculadas.", "1625"),
  ("Otras deudas a largo plazo con partes vinculadas", "163"),
  ("Otras deudas a largo plazo, empresas del grupo", "1633"),
  ("Otras deudas a largo plazo, empresas asociadas", "1634"),
  ("Otras deudas a largo plazo, con otras partes vinculadas", "1635"),
  ("DEUDAS A LARGO PLAZO POR PRÉSTAMOS RECIBIDOS, EMPRÉSTITOS Y OTROS CONCEPTOS", "17"),
  ("Deudas a largo plazo con entidades de crédito", "170"),
  ("Deudas a largo plazo", "171"),
  ("Deudas a largo plazo transformables en subvenciones, donaciones y legados", "172"),
  ("Proveedores de inmovilizado a largo plazo", "173"),
  ("Acreedores por arrendamiento financiero a largo plazo", "174"),
  ("Efectos a pagar a largo plazo", "175"),
  ("Pasivos por derivados financieros a largo plazo", "176"),
  ("Pasivos por derivados financieros a largo plazo, cartera de negociación", "1765"),
  ("Pasivos por derivados financieros a largo plazo, instrumentos de cobertura", "1768"),
  ("Obligaciones y bonos", "177"),
  ("Obligaciones y bonos convertibles", "178"),
  ("Deudas representadas en otros valores negociables", "179"),
  ("PASIVOS POR FIANZAS, GARANTÍAS Y OTROS CONCEPTOS A LARGO PLAZO", "18"),
  ("Fianzas recibidas a largo plazo", "180"),
  ("Anticipos recibidos por ventas o prestaciones de servicios a largo plazo", "181"),
  ("Depósitos recibidos a largo plazo", "185"),
  ("Garantías financieras a largo plazo", "189"),
  ("SITUACIONES TRANSITORIAS DE FINANCIACIÓN", "19"),
  ("Acciones o participaciones emitidas", "190"),
  ("Suscriptores de acciones", "192"),
  ("Capital emitido pendiente de inscripción", "194"),
  ("Acciones o participaciones emitidas consideradas como pasivos financieros", "195"),
  ("Suscriptores de acciones consideradas como pasivos financieros", "197"),
  ("Acciones o participaciones emitidas consideradas como pasivos financieros pendientes de inscripción.", "199"),
  ("INMOVILIZACIONES INTANGIBLES", "20"),
  ("Investigación", "200"),
  ("Desarrollo", "201"),
  ("Concesiones administrativas", "202"),
  ("Propiedad industrial", "203"),
  ("Fondo de comercio", "204"),
  ("Derechos de traspaso", "205"),
  ("Aplicaciones informáticas", "206"),
  ("Anticipos para inmovilizaciones intangibles", "209"),
  ("INMOVILIZACIONES MATERIALES", "21"),
  ("Terrenos y bienes naturales", "210"),
  ("Construcciones", "211"),
  ("Instalaciones técnicas", "212"),
  ("Maquinaria", "213"),
  ("Utillaje", "214"),
  ("Otras instalaciones", "215"),
  ("Mobiliario", "216"),
  ("Equipos para procesos de información", "217"),
  ("Elementos de transporte", "218"),
  ("Otro inmovilizado material", "219"),
  ("INVERSIONES INMOBILIARIAS", "22"),
  ("Inversiones en terrenos y bienes naturales", "220"),
  ("Inversiones en construcciones", "221"),
  ("INMOVILIZACIONES MATERIALES EN CURSO", "23"),
  ("Adaptación de terrenos y bienes naturales", "230"),
  ("Construcciones en curso", "231"),
  ("Instalaciones técnicas en montaje", "232"),
  ("Maquinaria en montaje", "233"),
  ("Equipos para procesos de información en montaje", "237"),
  ("Anticipos para inmovilizaciones materiales", "239"),
  ("INVERSIONES FINANCIERAS A LARGO PLAZO EN PARTES VINCULADAS", "24"),
  ("Participaciones a largo plazo en partes vinculadas", "240"),
  ("Participaciones a largo plazo en empresas del grupo", "2403"),
  ("Participaciones a largo plazo en empresas asociadas", "2404"),
  ("Participaciones a largo plazo en otras partes vinculadas", "2405"),
  ("Valores representativos de deuda a largo plazo de partes vinculadas", "241"),
  ("Valores representativos de deuda a largo plazo de empresas del grupo", "2413"),
  ("Valores representativos de deuda a largo plazo de empresas asociadas", "2414"),
  ("Valores representativos de deuda a largo plazo de otras partes vinculadas", "2415"),
  ("Créditos a largo plazo a partes vinculadas", "242"),
  ("Créditos a largo plazo a empresas del grupo", "2423"),
  ("Créditos a largo plazo a empresas asociadas", "2424"),
  ("Créditos a largo plazo a otras partes vinculadas", "2425"),
  ("Desembolsos pendientes sobre participaciones a largo plazo en partes vinculadas", "249"),
  ("Desembolsos pendientes sobre participaciones a largo plazo en empresas del grupo.", "2493"),
  ("Desembolsos pendientes sobre participaciones a largo plazo en empresas asociadas.", "2494"),
  ("Desembolsos pendientes sobre participaciones a largo plazo en otras partes vinculadas", "2495"),
  ("OTRAS INVERSIONES FINANCIERAS A LARGO PLAZO", "25"),
  ("Inversiones financieras a largo plazo en instrumentos de patrimonio", "250"),
  ("Valores representativos de deuda a largo plazo", "251"),
  ("Créditos a largo plazo", "252"),
  ("Créditos a largo plazo por enajenación de inmovilizado", "253"),
  ("Créditos a largo plazo al personal", "254"),
  ("Activos por derivados financieros a largo plazo", "255"),
  ("Activos por derivados financieros a largo plazo, cartera de negociación", "2550"),
  ("Activos por derivados financieros a largo plazo, instrumentos de cobertura", "2553"),
  ("Derechos de reembolso derivados de contratos de seguro relativos a retribuciones a largo plazo al personal", "257"),
  ("Imposiciones a largo plazo", "258"),
  ("Desembolsos pendientes sobre participaciones en el patrimonio neto a largo plazo", "259"),
  ("FIANZAS Y DEPÓSITOS CONSTITUIDOS A LARGO PLAZO", "26"),
  ("Fianzas constituidas a largo plazo", "260"),
  ("Depósitos constituidos a largo plazo", "265"),
  ("AMORTIZACIÓN ACUMULADA DEL INMOVILIZADO", "28"),
  ("Amortización acumulada del inmovilizado intangible", "280"),
  ("Amortización acumulada de investigación", "2800"),
  ("Amortización acumulada de desarrollo", "2801"),
  ("Amortización acumulada de concesiones administrativas", "2802"),
  ("Amortización acumulada de propiedad industrial", "2803"),
  ("Amortización acumulada de fondo de comercio", "2804"),
  ("Amortización acumulada de derechos de traspaso", "2805"),
  ("Amortización acumulada de aplicaciones informáticas", "2806"),
  ("Amortización acumulada del inmovilizado material", "281"),
  ("Amortización acumulada de construcciones", "2811"),
  ("Amortización acumulada de instalaciones técnicas", "2812"),
  ("Amortización acumulada de maquinaria", "2813"),
  ("Amortización acumulada de utillaje", "2814"),
  ("Amortización acumulada de otras instalaciones", "2815"),
  ("Amortización acumulada de mobiliario", "2816"),
  ("Amortización acumulada de equipos para procesos de información", "2817"),
  ("Amortización acumulada de elementos de transporte", "2818"),
  ("Amortización acumulada de otro inmovilizado material", "2819"),
  ("Amortización acumulada de las inversiones inmobiliarias", "282"),
  ("DETERIORO DE VALOR DE ACTIVOS NO CORRIENTES", "29"),
  ("Deterioro de valor del inmovilizado intangible", "290"),
  ("Deterioro de valor de investigación", "2900"),
  ("Deterioro del valor de desarrollo", "2901"),
  ("Deterioro de valor de concesiones administrativas", "2902"),
  ("Deterioro de valor de propiedad industrial", "2903"),
  ("Deterioro de valor de derechos de traspaso", "2905"),
  ("Deterioro de valor de aplicaciones informáticas", "2906"),
  ("Deterioro de valor del inmovilizado material", "291"),
  ("Deterioro de valor de terrenos y bienes naturales", "2910"),
  ("Deterioro de valor de construcciones", "2911"),
  ("Deterioro de valor de instalaciones técnicas", "2912"),
  ("Deterioro de valor de maquinaria", "2913"),
  ("Deterioro de valor de utillaje", "2914"),
  ("Deterioro de valor de otras instalaciones", "2915"),
  ("Deterioro de valor de mobiliario", "2916"),
  ("Deterioro de valor de equipos para procesos de información", "2917"),
  ("Deterioro de valor de elementos de transporte", "2918"),
  ("Deterioro de valor de otro inmovilizado material", "2919"),
  ("Deterioro de valor de las inversiones inmobiliarias", "292"),
  ("Deterioro de valor de los terrenos y bienes naturales", "2920"),
  ("Deterioro de valor de construcciones", "2921"),
  ("Deterioro de valor de participaciones a largo plazo", "293"),
  ("Deterioro de valor de participaciones a largo plazo en empresas del grupo", "2933"),
  ("Deterioro de valor de participaciones a largo plazo en empresas asociadas", "2934"),
  ("Deterioro de valor de participaciones a largo plazo en otras partes vinculadas", "2935"),
  ("Deterioro de valor de participaciones a largo plazo en otras empresas", "2936"),
  ("Deterioro de valor de valores representativos de deuda a largo plazo de partes vinculadas", "294"),
  ("Deterioro de valor de valores representativos de deuda a largo plazo de empresas del grupo", "2943"),
  ("Deterioro de valor de valores representativos de deuda a largo plazo de empresas asociadas", "2944"),
  ("Deterioro de valor de valores representativos de deuda a largo plazo de otras partes vinculadas", "2945"),
  ("Deterioro de valor de créditos a largo plazo a partes vinculadas", "295"),
  ("Deterioro de valor de créditos a largo plazo a empresas del grupo", "2953"),
  ("Deterioro de valor de créditos a largo plazo a empresas asociadas", "2954"),
  ("Deterioro de valor de créditos a largo plazo a otras partes vinculadas", "2955"),
  ("Deterioro de valor de valores representativos de deuda a largo plazo", "297"),
  ("Deterioro de valor de créditos a largo plazo", "298"),
  ("COMERCIALES", "30"),
  ("Mercaderías A", "300"),
  ("Mercaderías B", "301"),
  ("MATERIAS PRIMAS", "31"),
  ("Materias primas A", "310"),
  ("Materias primas B", "311"),
  ("OTROS APROVISIONAMIENTOS", "32"),
  ("Elementos y conjuntos incorporables", "320"),
  ("Combustibles", "321"),
  ("Repuestos", "322"),
  ("Materiales diversos", "325"),
  ("Embalajes", "326"),
  ("Envases", "327"),
  ("Material de oficina", "328"),
  ("PRODUCTOS EN CURSO", "33"),
  ("Productos en curso A", "330"),
  ("Productos en curso B", "331"),
  ("PRODUCTOS SEMITERMINADOS", "34"),
  ("Productos semiterminados A", "340"),
  ("Productos semiterminados B", "341"),
  ("PRODUCTOS TERMINADOS", "35"),
  ("Productos terminados A", "350"),
  ("Productos terminados B", "351"),
  ("SUBPRODUCTOS, RESIDUOS Y MATERIALES RECUPERADOS", "36"),
  ("Subproductos A", "360"),
  ("Subproductos B", "361"),
  ("Residuos A", "365"),
  ("Residuos B", "366"),
  ("Materiales recuperados A", "368"),
  ("Materiales recuperados B", "369"),
  ("DETERIORO DE VALOR DE LAS EXISTENCIAS", "39"),
  ("Deterioro de valor de las mercaderías", "390"),
  ("Deterioro de valor de las materias primas", "391"),
  ("Deterioro de valor de otros aprovisionamientos", "392"),
  ("Deterioro de valor de los productos en curso", "393"),
  ("Deterioro de valor de los productos semiterminados", "394"),
  ("Deterioro de valor de los productos terminados", "395"),
  ("Deterioro de valor de los subproductos, residuos y materiales recuperados", "396"),
  ("PROVEEDORES", "40"),
  ("Proveedores", "400"),
  ("Proveedores (euros)", "4000"),
  ("Proveedores (moneda extranjera)", "4004"),
  ("Proveedores, facturas pendientes de recibir o de formalizar", "4009"),
  ("Proveedores, efectos comerciales a pagar", "401"),
  ("Proveedores, empresas del grupo", "403"),
  ("Proveedores, empresas del grupo (euros)", "4030"),
  ("Efectos comerciales a pagar, empresas del grupo", "4031"),
  ("Proveedores, empresas del grupo (moneda extranjera)", "4034"),
  ("Envases y embalajes a devolver a proveedores, empresas del grupo", "4036"),
  ("Proveedores, empresas del grupo, facturas pendientes de recibir o de formalizar", "4039"),
  ("Proveedores, empresas asociadas", "404"),
  ("Proveedores, otras partes vinculadas", "405"),
  ("Envases y embalajes a devolver a proveedores", "406"),
  ("Anticipos a proveedores", "407"),
  ("ACREEDORES VARIOS", "41"),
  ("Acreedores por prestaciones de servicios", "410"),
  ("Acreedores por prestaciones de servicios (euros)", "4100"),
  ("Acreedores por prestaciones de servicios, (moneda extranjera)", "4104"),
  ("Acreedores por prestaciones de servicios, facturas pendientes de recibir o de formalizar", "4109"),
  ("Acreedores, efectos comerciales a pagar", "411"),
  ("Acreedores por operaciones en común", "419"),
  ("CLIENTES", "43"),
  ("Clientes", "430"),
  ("Clientes (euros)", "4300"),
  ("Clientes (moneda extranjera)", "4304"),
  ("Clientes, facturas pendientes de formalizar", "4309"),
  ("Clientes, efectos comerciales a cobrar", "431"),
  ("Efectos comerciales en cartera", "4310"),
  ("Efectos comerciales descontados", "4311"),
  ("Efectos comerciales en gestión de cobro", "4312"),
  ("Efectos comerciales impagados", "4315"),
  ("Clientes, operaciones de «factoring»", "432"),
  ("Clientes, empresas del grupo", "433"),
  ("Clientes empresas del grupo (euros)", "4330"),
  ("Efectos comerciales a cobrar, empresas del grupo", "4331"),
  ("Clientes empresas del grupo, operaciones de «factoring»", "4332"),
  ("Clientes empresas del grupo (moneda extranjera)", "4334"),
  ("Clientes empresas del grupo de dudoso cobro", "4336"),
  ("Envases y embalajes a devolver a clientes, empresas del grupo", "4337"),
  ("Clientes empresas del grupo, facturas pendientes de formalizar", "4339"),
  ("Clientes, empresas asociadas", "434"),
  ("Clientes, otras partes vinculadas", "435"),
  ("Clientes de dudoso cobro", "436"),
  ("Envases y embalajes a devolver por clientes", "437"),
  ("Anticipos de clientes", "438"),
  ("DEUDORES VARIOS", "44"),
  ("Deudores", "440"),
  ("Deudores (euros)", "4400"),
  ("Deudores (moneda extranjera)", "4404"),
  ("Deudores, facturas pendientes de formalizar", "4409"),
  ("Deudores, efectos comerciales a cobrar", "441"),
  ("Deudores, efectos comerciales en cartera", "4410"),
  ("Deudores, efectos comerciales descontados", "4411"),
  ("Deudores, efectos comerciales en gestión de cobro", "4412"),
  ("Deudores, efectos comerciales impagados", "4415"),
  ("Deudores de dudoso cobro", "446"),
  ("Deudores por operaciones en común", "449"),
  ("PERSONAL", "46"),
  ("Anticipos de remuneraciones", "460"),
  ("Remuneraciones pendientes de pago", "465"),
  ("Remuneraciones mediante sistemas de aportación definida pendientes de pago", "466"),
  ("ADMINISTRACIONES PÚBLICAS", "47"),
  ("Hacienda Pública, deudora por diversos conceptos", "470"),
  ("Hacienda Pública, deudora por IVA", "4700"),
  ("Hacienda Pública, deudora por subvenciones concedidas", "4708"),
  ("Hacienda Pública, deudora por devolución de impuestos", "4709"),
  ("Organismos de la Seguridad Social, deudores", "471"),
  ("Hacienda Pública, IVA soportado", "472"),
  ("Hacienda Pública, retenciones y pagos a cuenta", "473"),
  ("Activos por impuesto diferido", "474"),
  ("Activos por diferencias temporarias deducibles", "4740"),
  ("Derechos por deducciones y bonificaciones pendientes de aplicar", "4742"),
  ("Crédito por pérdidas a compensar del ejercicio", "4745"),
  ("Hacienda Pública, acreedora por conceptos fiscales", "475"),
  ("Hacienda Pública, acreedora por IVA", "4750"),
  ("Hacienda Pública, acreedora por retenciones practicadas", "4751"),
  ("Hacienda Pública, acreedora por impuesto sobre sociedades", "4752"),
  ("Hacienda Pública, acreedora por subvenciones a reintegrar", "4758"),
  ("Organismos de la Seguridad Social, acreedores", "476"),
  ("Hacienda Pública, IVA repercutido", "477"),
  ("Pasivos por diferencias temporarias imponibles", "479"),
  ("AJUSTES POR PERIODIFICACIÓN", "48"),
  ("Gastos anticipados", "480"),
  ("Ingresos anticipados", "485"),
  ("DETERIORO DE VALOR DE CRÉDITOS COMERCIALES Y PROVISIONES A CORTO PLAZO", "49"),
  ("Deterioro de valor de créditos por operaciones comerciales", "490"),
  ("Deterioro de valor de créditos por operaciones comerciales con partes vinculadas", "493"),
  ("Deterioro de valor de créditos por operaciones comerciales con empresas del grupo", "4933"),
  ("Deterioro de valor de créditos por operaciones comerciales con empresas asociadas", "4934"),
  ("Deterioro de valor de créditos por operaciones comerciales con otras partes vinculadas", "4935"),
  ("Provisiones por operaciones comerciales", "499"),
  ("Provisión por contratos onerosos", "4994"),
  ("Provisión para otras operaciones comerciales", "4999"),
  ("EMPRÉSTITOS, DEUDAS CON CARÁCTERÍSTICAS ESPECIALES Y OTRAS EMISIONES ANÁLOGAS A CORTO PLAZO", "50"),
  ("Obligaciones y bonos a corto plazo Obligaciones y bonos convertibles a corto plazo", "500"),
  ("Acciones o participaciones a corto plazo consideradas como pasivos financieros", "501"),
  ("Deudas representadas en otros valores negociables a corto plazo", "505"),
  ("Intereses a corto plazo de empréstitos y otras emisiones análogas", "506"),
  ("Dividendos de acciones o participaciones consideradas como pasivos financieros", "507"),
  ("Valores negociables amortizados", "509"),
  ("Obligaciones y bonos amortizados", "5090"),
  ("Obligaciones y bonos convertibles amortizados", "5091"),
  ("Otros valores negociables amortizados", "5095"),
  ("DEUDAS A CORTO PLAZO CON PARTES VINCULADAS", "51"),
  ("Deudas a corto plazo con entidades de crédito vinculadas", "510"),
  ("Deudas a corto plazo con entidades de crédito, empresas del grupo", "5103"),
  ("Deudas a corto plazo con entidades de crédito, empresas asociadas", "5104"),
  ("Deudas a corto plazo con otras entidades de crédito vinculadas", "5105"),
  ("Proveedores de inmovilizado a corto plazo, partes vinculadas", "511"),
  ("Proveedores de inmovilizado a corto plazo, empresas del grupo", "5113"),
  ("Proveedores de inmovilizado a corto plazo, empresas asociadas", "5114"),
  ("Proveedores de inmovilizado a corto plazo, otras partes vinculadas", "5115"),
  ("Acreedores por arrendamiento financiero a corto plazo, partes vinculadas.", "512"),
  ("Acreedores por arrendamiento financiero a corto plazo, empresas del grupo", "5123"),
  ("Acreedores por arrendamiento financiero a corto plazo, empresas asociadas", "5124"),
  ("Acreedores por arrendamiento financiero a corto plazo, otras partes vinculadas", "5125"),
  ("Otras deudas a corto plazo con partes vinculadas", "513"),
  ("Otras deudas a corto plazo con empresas del grupo", "5133"),
  ("Otras deudas a corto plazo con empresas asociadas", "5134"),
  ("Otras deudas a corto plazo con otras partes vinculadas", "5135"),
  ("Intereses a corto plazo de deudas con partes vinculadas", "514"),
  ("Intereses a corto plazo de deudas, empresas del grupo", "5143"),
  ("Intereses a corto plazo de deudas, empresas asociadas", "5144"),
  ("Intereses a corto plazo de deudas, otras partes vinculadas", "5145"),
  ("DEUDAS A CORTO PLAZO POR PRÉSTAMOS RECIBIDOS Y OTROS CONCEPTOS", "52"),
  ("Deudas a corto plazo con entidades de crédito", "520"),
  ("Préstamos a corto plazo de entidades de crédito", "5200"),
  ("Deudas a corto plazo por crédito dispuesto", "5201"),
  ("Deudas por efectos descontados", "5208"),
  ("Deudas por operaciones de «factoring»", "5209"),
  ("Deudas a corto plazo", "521"),
  ("Deudas a corto plazo transformables en subvenciones, donaciones y legados", "522"),
  ("Proveedores de inmovilizado a corto plazo", "523"),
  ("Acreedores por arrendamiento financiero a corto plazo", "524"),
  ("Efectos a pagar a corto plazo", "525"),
  ("Dividendo activo a pagar", "526"),
  ("Intereses a corto plazo de deudas con entidades de crédito", "527"),
  ("Intereses a corto plazo de deudas", "528"),
  ("Provisiones a corto plazo", "529"),
  ("Provisión a corto plazo por retribuciones al personal", "5290"),
  ("Provisión a corto plazo para impuestos", "5291"),
  ("Provisión a corto plazo para otras responsabilidades", "5292"),
  ("Provisión a corto plazo por desmantelamiento, retiro o rehabilitación del inmovilizado", "5293"),
  ("Provisión a corto plazo para actuaciones medioambientales", "5295"),
  ("Provisión a corto plazo para reestructuraciones", "5296"),
  ("Provisión a corto plazo por transacciones con pagos basados en instrumentos de patrimonio", "5297"),
  ("INVERSIONES FINANCIERAS A CORTO PLAZO EN PARTES VINCULADAS", "53"),
  ("Participaciones a corto plazo en partes vinculadas", "530"),
  ("Participaciones a corto plazo, en empresas del grupo", "5303"),
  ("Participaciones a corto plazo, en empresas asociadas", "5304"),
  ("Participaciones a corto plazo, en otras partes vinculadas", "5305"),
  ("Valores representativos de deuda a corto plazo de partes vinculadas", "531"),
  ("Valores representativos de deuda a corto plazo de empresas del grupo", "5313"),
  ("Valores representativos de deuda a corto plazo de empresas asociadas", "5314"),
  ("Valores representativos de deuda a corto plazo de otras partes vinculadas", "5315"),
  ("Créditos a corto plazo a partes vinculadas", "532"),
  ("Créditos a corto plazo a empresas del grupo", "5323"),
  ("Créditos a corto plazo a empresas asociadas", "5324"),
  ("Créditos a corto plazo a otras partes vinculadas", "5325"),
  ("Intereses a corto plazo de valores representativos de deuda de partes vinculadas", "533"),
  ("Intereses a corto plazo de valores representativos de deuda de empresas del grupo", "5333"),
  ("Intereses a corto plazo de valores representativos de deuda de empresas asociadas", "5334"),
  ("Intereses a corto plazo de valores representativos de deuda de otras partes vinculadas", "5335"),
  ("Intereses a corto plazo de créditos a partes vinculadas", "534"),
  ("Intereses a corto plazo de créditos a empresas del grupo", "5343"),
  ("Intereses a corto plazo de créditos a empresas asociadas", "5344"),
  ("Intereses a corto plazo de créditos a otras partes vinculadas", "5345"),
  ("Dividendo a cobrar de inversiones financieras en partes vinculadas", "535"),
  ("Dividendo a cobrar de empresas del grupo", "5353"),
  ("Dividendo a cobrar de empresas asociadas", "5354"),
  ("Dividendo a cobrar de otras partes vinculadas", "5355"),
  ("Desembolsos pendientes sobre participaciones a corto plazo en partes vinculadas", "539"),
  ("Desembolsos pendientes sobre participaciones a corto plazo en empresas del grupo.", "5393"),
  ("Desembolsos pendientes sobre participaciones a corto plazo en empresas asociadas.", "5394"),
  ("Desembolsos pendientes sobre participaciones a corto plazo en otras partes vinculadas", "5395"),
  ("OTRAS INVERSIONES FINANCIERAS A CORTO PLAZO", "54"),
  ("Inversiones financieras a corto plazo en instrumentos de patrimonio", "540"),
  ("Valores representativos de deuda a corto plazo", "541"),
  ("Créditos a corto plazo", "542"),
  ("Créditos a corto plazo por enajenación de inmovilizado", "543"),
  ("Créditos a corto plazo al personal", "544"),
  ("Dividendo a cobrar", "545"),
  ("Intereses a corto plazo de valores representativos de deudas", "546"),
  ("Intereses a corto plazo de créditos", "547"),
  ("Imposiciones a corto plazo", "548"),
  ("Desembolsos pendientes sobre participaciones en el patrimonio neto a corto plazo", "549"),
  ("OTRAS CUENTAS NO BANCARIAS", "55"),
  ("Titular de la explotación", "550"),
  ("Cuenta corriente con socios y administradores", "551"),
  ("Cuenta corriente con otras personas y entidades vinculadas", "552"),
  ("Cuenta corriente con empresas del grupo", "5523"),
  ("Cuenta corriente con empresas asociadas", "5524"),
  ("Cuenta corriente con otras partes vinculadas", "5525"),
  ("Cuentas corrientes en fusiones y escisiones", "553"),
  ("Socios de sociedad disuelta", "5530"),
  ("Socios, cuenta de fusión", "5531"),
  ("Socios de sociedad escindida", "5532"),
  ("Socios, cuenta de escisión", "5533"),
  ("Cuenta corriente con uniones temporales de empresas y comunidades de bienes", "554"),
  ("Partidas pendientes de aplicación", "555"),
  ("Desembolsos exigidos sobre participaciones en el patrimonio neto", "556"),
  ("Desembolsos exigidos sobre participaciones, empresas del grupo", "5563"),
  ("Desembolsos exigidos sobre participaciones, empresas asociadas", "5564"),
  ("Desembolsos exigidos sobre participaciones, otras partes vinculadas", "5565"),
  ("Desembolsos exigidos sobre participaciones de otras empresas", "5566"),
  ("Dividendo activo a cuenta", "557"),
  ("Socios por desembolsos exigidos", "558"),
  ("Socios por desembolsos exigidos sobre acciones o participaciones ordinarias", "5580"),
  ("Socios por desembolsos exigidos sobre acciones o participaciones consideradas como pasivos financieros", "5585"),
  ("Derivados financieros a corto plazo", "559"),
  ("Activos por derivados financieros a corto plazo, cartera de negociación", "5590"),
  ("Activos por derivados financieros a corto plazo, instrumentos de cobertura", "5593"),
  ("Pasivos por derivados financieros a corto plazo, cartera de negociación", "5595"),
  ("Pasivos por derivados financieros a corto plazo, instrumentos de cobertura", "5598"),
  ("FIANZAS Y DEPÓSITOS RECIBIDOS Y CONSTITUIDOS A CORTO PLAZO Y AJUSTES POR PERIODIFICACIÓN", "56"),
  ("Fianzas recibidas a corto plazo", "560"),
  ("Depósitos recibidos a corto plazo", "561"),
  ("Fianzas constituidas a corto plazo", "565"),
  ("Depósitos constituidos a corto plazo", "566"),
  ("Intereses pagados por anticipado", "567"),
  ("Intereses cobrados por anticipado", "568"),
  ("Garantías financieras a corto plazo", "569"),
  ("TESORERÍA", "57"),
  ("Caja, euros", "570"),
  ("Caja, moneda extranjera", "571"),
  ("Bancos e instituciones de crédito c/c vista, euros", "572"),
  ("Bancos e instituciones de crédito c/c vista, moneda extranjera", "573"),
  ("Bancos e instituciones de crédito, cuentas de ahorro, euros", "574"),
  ("Bancos e instituciones de crédito, cuentas de ahorro, moneda extranjera", "575"),
  ("Inversiones a corto plazo de gran liquidez", "576"),
  ("ACTIVOS NO CORRIENTES MANTENIDOS PARA LA VENTA Y ACTIVOS Y PASIVOS ASOCIADOS", "58"),
  ("Inmovilizado", "580"),
  ("Inversiones con personas y entidades vinculadas", "581"),
  ("Inversiones financieras", "582"),
  ("Existencias, deudores comerciales y otras cuentas a cobrar", "583"),
  ("Otros activos", "584"),
  ("Provisiones", "585"),
  ("Deudas con características especiales", "586"),
  ("Deudas con personas y entidades vinculadas", "587"),
  ("Acreedores comerciales y otras cuentas a pagar", "588"),
  ("Otros pasivos", "589"),
  ("DETERIORO DEL VALOR DE INVERSIONES FINANCIERAS A CORTO PLAZO Y DE ACTIVOS NO CORRIENTES MANTENIDOS PARA LA VENTA", "59"),
  ("Deterioro de valor de participaciones a corto plazo", "593"),
  ("Deterioro de valor de participaciones a corto plazo en empresas del grupo", "5933"),
  ("Deterioro de valor de participaciones a corto plazo en empresas asociadas", "5934"),
  ("Deterioro de valor de participaciones a corto plazo en otras partes vinculadas", "5935"),
  ("Deterioro de valor de participaciones a corto plazo en otras empresas.", "5936"),
  ("Deterioro de valor de valores representativos de deuda a corto plazo de partes vinculadas", "594"),
  ("Deterioro de valor de valores representativos de deuda a corto plazo de empresas del grupo", "5943"),
  ("Deterioro de valor de valores representativos de deuda a corto plazo de empresas asociadas", "5944"),
  ("Deterioro de valor de valores representativos de deuda a corto plazo de otras partes vinculadas", "5945"),
  ("Deterioro de valor de créditos a corto plazo a partes vinculadas", "595"),
  ("Deterioro de valor de créditos a corto plazo a empresas del grupo", "5953"),
  ("Deterioro de valor de créditos a corto plazo a empresas asociadas", "5954"),
  ("Deterioro de valor de créditos a corto plazo a otras partes vinculadas", "5955"),
  ("Deterioro de valor de valores representativos de deuda a corto plazo", "597"),
  ("Deterioro de valor de créditos a corto plazo", "598"),
  ("Deterioro de valor de activos no corrientes mantenidos para la venta", "599"),
  ("Deterioro de valor de inmovilizado no corriente mantenido para la venta", "5990"),
  ("Deterioro de valor de inversiones con personas y entidades vinculadas no corrientes mantenidas para la venta", "5991"),
  ("Deterioro de valor de inversiones financieras no corrientes mantenidas para la venta", "5992"),
  ("Deterioro de valor de existencias, deudores comerciales y otras cuentas a cobrar integrados en un grupo enajenable mantenido para la venta", "5993"),
  ("Deterioro de valor de otros activos mantenidos para la venta", "5994"),
  ("COMPRAS", "60"),
  ("Compras de mercaderías", "600"),
  ("Compras de materias primas", "601"),
  ("Compras de otros aprovisionamientos", "602"),
  ("Descuentos sobre compras por pronto pago", "606"),
  ("Descuentos sobre compras por pronto pago de mercaderías", "6060"),
  ("Descuentos sobre compras por pronto pago de materias primas", "6061"),
  ("Descuentos sobre compras por pronto pago de otros aprovisionamientos", "6062"),
  ("Trabajos realizados por otras empresas", "607"),
  ("Devoluciones de compras y operaciones similares", "608"),
  ("Devoluciones de compras de mercaderías", "6080"),
  ("Devoluciones de compras de materias primas", "6081"),
  ("Devoluciones de compras de otros aprovisionamientos", "6082"),
  ("«Rappels» por compras", "609"),
  ("«Rappels» por compras de mercaderías", "6090"),
  ("«Rappels» por compras de materias primas", "6091"),
  ("«Rappels» por compras de otros aprovisionamientos", "6092"),
  ("VARIACIÓN DE EXISTENCIAS", "61"),
  ("Variación de existencias de mercaderías", "610"),
  ("Variación de existencias de materias primas", "611"),
  ("Variación de existencias de otros aprovisionamientos", "612"),
  ("SERVICIOS EXTERIORES", "62"),
  ("Gastos en investigación y desarrollo del ejercicio", "620"),
  ("Arrendamientos y cánones", "621"),
  ("Reparaciones y conservación", "622"),
  ("Servicios de profesionales independientes", "623"),
  ("Transportes", "624"),
  ("Primas de seguros", "625"),
  ("Servicios bancarios y similares", "626"),
  ("Publicidad, propaganda y relaciones públicas", "627"),
  ("Suministros", "628"),
  ("Otros servicios", "629"),
  ("TRIBUTOS", "63"),
  ("Impuesto sobre beneficios", "630"),
  ("Impuesto corriente", "6300"),
  ("Impuesto diferido", "6301"),
  ("Otros tributos", "631"),
  ("Ajustes negativos en la imposición sobre beneficios", "633"),
  ("Ajustes negativos en la imposición indirecta", "634"),
  ("Ajustes negativos en IVA de activo corriente", "6341"),
  ("Ajustes negativos en IVA de inversiones", "6342"),
  ("Devolución de impuestos", "636"),
  ("Ajustes positivos en la imposición sobre beneficios", "638"),
  ("Ajustes positivos en la imposición indirecta", "639"),
  ("Ajustes positivos en IVA de activo corriente", "6391"),
  ("Ajustes positivos en IVA de inversiones", "6392"),
  ("GASTOS DE PERSONAL", "64"),
  ("Sueldos y salarios", "640"),
  ("Indemnizaciones", "641"),
  ("Seguridad Social a cargo de la empresa", "642"),
  ("Retribuciones a largo plazo mediante sistemas de aportación definida", "643"),
  ("Retribuciones a largo plazo mediante sistemas de prestación definida", "644"),
  ("Contribuciones anuales", "6440"),
  ("Otros costes", "6442"),
  ("Retribuciones al personal mediante instrumentos de patrimonio", "645"),
  ("Retribuciones al personal liquidados con instrumentos de patrimonio", "6450"),
  ("Retribuciones al personal liquidados en efectivo basado en instrumentos de patrimonio", "6457"),
  ("Otros gastos sociales", "649"),
  ("OTROS GASTOS DE GESTIÓN", "65"),
  ("Pérdidas de créditos comerciales incobrables", "650"),
  ("Resultados de operaciones en común", "651"),
  ("Beneficio transferido (gestor)", "6510"),
  ("Pérdida soportada (partícipe o asociado no gestor)", "6511"),
  ("Otras pérdidas en gestión corriente", "659"),
  ("GASTOS FINANCIEROS", "66"),
  ("Gastos financieros por actualización de provisiones", "660"),
  ("Intereses de obligaciones y bonos", "661"),
  ("Intereses de obligaciones y bonos a largo plazo, empresas del grupo", "6610"),
  ("Intereses de obligaciones y bonos a largo plazo, empresas asociadas", "6611"),
  ("Intereses de obligaciones y bonos a largo plazo, otras partes vinculadas", "6612"),
  ("Intereses de obligaciones y bonos a largo plazo, otras empresas", "6613"),
  ("Intereses de obligaciones y bonos a corto plazo, empresas del grupo", "6615"),
  ("Intereses de obligaciones y bonos a corto plazo, empresas asociadas", "6616"),
  ("Intereses de obligaciones y bonos a corto plazo, otras partes vinculadas", "6617"),
  ("Intereses de obligaciones y bonos a corto plazo, otras empresas", "6618"),
  ("Intereses de deudas", "662"),
  ("Intereses de deudas, empresas del grupo", "6620"),
  ("Intereses de deudas, empresas asociadas", "6621"),
  ("Intereses de deudas, otras partes vinculadas", "6622"),
  ("Intereses de deudas con entidades de crédito", "6623"),
  ("Intereses de deudas, otras empresas", "6624"),
  ("Pérdidas por valoración de instrumentos financieros por su valor razonable", "663"),
  ("Pérdidas de cartera de negociación", "6630"),
  ("Pérdidas de designados por la empresa", "6631"),
  ("Pérdidas de activos financieros a valor razonable con cambios en el patrimonio neto", "6632"),
  ("Pérdidas de instrumentos de cobertura", "6633"),
  ("Pérdidas de otros instrumentos financieros", "6634"),
  ("Gastos por dividendos de acciones o participaciones consideradas como pasivos financieros", "664"),
  ("Dividendos de pasivos, empresas del grupo", "6640"),
  ("Dividendos de pasivos, empresas asociadas", "6641"),
  ("Dividendos de pasivos, otras partes vinculadas", "6642"),
  ("Dividendos de pasivos, otras empresas", "6643"),
  ("Intereses por descuento de efectos y operaciones de «factoring»", "665"),
  ("Intereses por descuento de efectos en entidades de crédito del grupo", "6650"),
  ("Intereses por descuento de efectos en entidades de crédito asociadas", "6651"),
  ("Intereses por descuento de efectos en otras entidades de crédito vinculadas", "6652"),
  ("Intereses por descuento de efectos en otras entidades de crédito", "6653"),
  ("Intereses por operaciones de «factoring» con entidades de crédito del grupo", "6654"),
  ("Intereses por operaciones de «factoring» con otras entidades de crédito", "6657"),
  ("Pérdidas en participaciones y valores representativos de deuda", "666"),
  ("Pérdidas en valores representativos de deuda a largo plazo, empresas del grupo", "6660"),
  ("Pérdidas en valores representativos de deuda a largo plazo, empresas asociadas", "6661"),
  ("Pérdidas en valores representativos de deuda a largo plazo, otras partes vinculadas", "6662"),
  ("Pérdidas en participaciones y valores representativos de deuda a largo plazo, otras empresas", "6663"),
  ("Pérdidas en participaciones y valores representativos de deuda a corto plazo, empresas del grupo", "6665"),
  ("Pérdidas en participaciones y valores representativos de deuda a corto plazo, empresas asociadas", "6666"),
  ("Pérdidas en valores representativos de deuda a corto plazo, otras partes vinculadas", "6667"),
  ("Pérdidas en valores representativos de deuda a corto plazo, otras empresas", "6668"),
  ("Pérdidas de créditos no comerciales", "667"),
  ("Pérdidas de créditos a largo plazo, empresas del grupo", "6670"),
  ("Pérdidas de créditos a largo plazo, empresas asociadas", "6671"),
  ("Pérdidas de créditos a largo plazo, otras partes vinculadas", "6672"),
  ("Pérdidas de créditos a largo plazo, otras empresas", "6673"),
  ("Pérdidas de créditos a corto plazo, empresas del grupo", "6675"),
  ("Pérdidas de créditos a corto plazo, empresas asociadas", "6676"),
  ("Pérdidas de créditos a corto plazo, otras partes vinculadas", "6677"),
  ("Pérdidas de créditos a corto plazo, otras empresas", "6678"),
  ("Diferencias negativas de cambio", "668"),
  ("Otros gastos financieros", "669"),
  ("PÉRDIDAS PROCEDENTES DE ACTIVOS NO CORRIENTES Y GASTOS EXCEPCIONALES", "67"),
  ("Pérdidas procedentes del inmovilizado intangible", "670"),
  ("Pérdidas procedentes del inmovilizado material", "671"),
  ("Pérdidas procedentes de las inversiones inmobiliarias", "672"),
  ("Pérdidas procedentes de participaciones a largo plazo en partes vinculadas", "673"),
  ("Pérdidas procedentes de participaciones a largo plazo, empresas del grupo", "6733"),
  ("Pérdidas procedentes de participaciones a largo plazo, empresas asociadas", "6734"),
  ("Pérdidas procedentes de participaciones a largo plazo, otras partes vinculadas", "6735"),
  ("Pérdidas por operaciones con obligaciones propias", "675"),
  ("Gastos excepcionales", "678"),
  ("DOTACIONES PARA AMORTIZACIONES", "68"),
  ("Amortización del inmovilizado intangible", "680"),
  ("Amortización del inmovilizado material", "681"),
  ("Amortización de las inversiones inmobiliarias", "682"),
  ("PÉRDIDAS POR DETERIOROY OTRAS DOTACIONES", "69"),
  ("Pérdidas por deterioro del inmovilizado intangible", "690"),
  ("Pérdidas por deterioro del inmovilizado material", "691"),
  ("Pérdidas por deterioro de las inversiones inmobiliarias", "692"),
  ("Pérdidas por deterioro de existencias", "693"),
  ("Pérdidas por deterioro de productos terminados y en curso de fabricación", "6930"),
  ("Pérdidas por deterioro de mercaderías", "6931"),
  ("Pérdidas por deterioro de materias primas", "6932"),
  ("Pérdidas por deterioro de otros aprovisionamientos", "6933"),
  ("Pérdidas por deterioro de créditos por operaciones comerciales", "694"),
  ("Dotación a la provisión por operaciones comerciales", "695"),
  ("Dotación a la provisión por contratos onerosos", "6954"),
  ("Dotación a la provisión para otras operaciones comerciales", "6959"),
  ("Pérdidas por deterioro de participaciones y valores representativos de deuda a largo plazo", "696"),
  ("Pérdidas por deterioro de participaciones en instrumentos de patrimonio neto a largo plazo, empresas del grupo", "6960"),
  ("Pérdidas por deterioro de participaciones en instrumentos de patrimonio neto a largo plazo, empresas asociadas", "6961"),
  ("Pérdidas por deterioro de participaciones en instrumentos de patrimonio neto a largo plazo, otras partes vinculadas", "6962"),
  ("Pérdidas por deterioro de participaciones en instrumentos de patrimonio neto a largo plazo, otras empresas", "6963"),
  ("Pérdidas por deterioro en valores representativos de deuda a largo plazo, empresas del grupo", "6965"),
  ("Pérdidas por deterioro en valores representativos de deuda a largo plazo, empresas asociadas", "6966"),
  ("Pérdidas por deterioro en valores representativos de deuda a largo plazo, otras partes vinculadas", "6967"),
  ("Pérdidas por deterioro en valores representativos de deuda a largo plazo, de otras empresas", "6968"),
  ("Pérdidas por deterioro de créditos a largo plazo", "697"),
  ("Pérdidas por deterioro de créditos a largo plazo, empresas del grupo", "6970"),
  ("Pérdidas por deterioro de créditos a largo plazo, empresas asociadas", "6971"),
  ("Pérdidas por deterioro de créditos a largo plazo, otras partes vinculadas", "6972"),
  ("Pérdidas por deterioro de créditos a largo plazo, otras empresas", "6973"),
  ("Pérdidas por deterioro de participaciones y valores representativos de deuda a corto plazo", "698"),
  ("Pérdidas por deterioro de participaciones en instrumentos de patrimonio neto a corto plazo, empresas del grupo", "6980"),
  ("Pérdidas por deterioro de participaciones en instrumentos de patrimonio neto a corto plazo, empresas asociadas", "6981"),
  ("Pérdidas por deterioro en valores representativos de deuda a corto plazo, empresas del grupo", "6985"),
  ("Pérdidas por deterioro en valores representativos de deuda a corto plazo, empresas asociadas", "6986"),
  ("Pérdidas por deterioro en valores representativos de deuda a corto plazo, otras partes vinculadas", "6987"),
  ("Pérdidas por deterioro en valores representativos de deuda a corto plazo, de otras empresas", "6988"),
  ("Pérdidas por deterioro de créditos a corto plazo", "699"),
  ("Pérdidas por deterioro de créditos a corto plazo, empresas del grupo", "6990"),
  ("Pérdidas por deterioro de créditos a corto plazo, empresas asociadas", "6991"),
  ("Pérdidas por deterioro de créditos a corto plazo, otras partes vinculadas", "6992"),
  ("Pérdidas por deterioro de créditos a corto plazo, otras empresas", "6993"),
  ("VENTAS DE MERCADERÍAS, DE PRODUCCIÓN PROPIA, DE SERVICIOS, ETC", "70"),
  ("Ventas de mercaderías", "700"),
  ("Ventas de productos terminados", "701"),
  ("Ventas de productos semiterminados", "702"),
  ("Ventas de subproductos y residuos", "703"),
  ("Ventas de envases y embalajes", "704"),
  ("Prestaciones de servicios", "705"),
  ("Descuentos sobre ventas por pronto pago", "706"),
  ("Descuentos sobre ventas por pronto pago de mercaderías", "7060"),
  ("Descuentos sobre ventas por pronto pago de productos terminados", "7061"),
  ("Descuentos sobre ventas por pronto pago de productos semiterminados", "7062"),
  ("Descuentos sobre ventas por pronto pago de subproductos y residuos", "7063"),
  ("Devoluciones de ventas y operaciones similares", "708"),
  ("Devoluciones de ventas de mercaderías", "7080"),
  ("Devoluciones de ventas de productos terminados", "7081"),
  ("Devoluciones de ventas de productos semiterminados", "7082"),
  ("Devoluciones de ventas de subproductos y residuos", "7083"),
  ("Devoluciones de ventas de envases y embalajes", "7084"),
  ("«Rappels» sobre ventas", "709"),
  ("«Rappels» sobre ventas de mercaderías", "7090"),
  ("«Rappels» sobre ventas de productos terminados", "7091"),
  ("«Rappels» sobre ventas de productos semiterminados", "7092"),
  ("«Rappels» sobre ventas de subproductos y residuos", "7093"),
  ("«Rappels» sobre ventas de envases y embalajes", "7094"),
  ("VARIACIÓN DE EXISTENCIAS", "71"),
  ("Variación de existencias de productos en curso", "710"),
  ("Variación de existencias de productos semiterminados", "711"),
  ("Variación de existencias de productos terminados", "712"),
  ("Variación de existencias de subproductos, residuos y materiales recuperados", "713"),
  ("TRABAJOS REALIZADOS PARA LA EMPRESA", "73"),
  ("Trabajos realizados para el inmovilizado intangible", "730"),
  ("Trabajos realizados para el inmovilizado material", "731"),
  ("Trabajos realizados en inversiones inmobiliarias", "732"),
  ("Trabajos realizados para el inmovilizado material en curso", "733"),
  ("SUBVENCIONES, DONACIONESY LEGADOS", "74"),
  ("Subvenciones, donaciones y legados a la explotación", "740"),
  ("Subvenciones, donaciones y legados de capital transferidos al resultado del ejercicio", "746"),
  ("Otras subvenciones, donaciones y legados transferidos al resultado del ejercicio", "747"),
  ("OTROS INGRESOS DE GESTIÓN", "75"),
  ("Resultados de operaciones en común", "751"),
  ("Pérdida transferida (gestor)", "7510"),
  ("Beneficio atribuido (partícipe o asociado no gestor)", "7511"),
  ("Ingresos por arrendamientos", "752"),
  ("Ingresos de propiedad industrial cedida en explotación", "753"),
  ("Ingresos por comisiones", "754"),
  ("Ingresos por servicios al personal", "755"),
  ("Ingresos por servicios diversos", "759"),
  ("INGRESOS FINANCIEROS", "76"),
  ("Ingresos de participaciones en instrumentos de patrimonio", "760"),
  ("Ingresos de participaciones en instrumentos de patrimonio, empresas del grupo", "7600"),
  ("Ingresos de participaciones en instrumentos de patrimonio, empresas asociadas", "7601"),
  ("Ingresos de participaciones en instrumentos de patrimonio, otras partes vinculadas", "7602"),
  ("Ingresos de participaciones en instrumentos de patrimonio, otras empresas", "7603"),
  ("Ingresos de valores representativos de deuda", "761"),
  ("Ingresos de valores representativos de deuda, empresas del grupo", "7610"),
  ("Ingresos de valores representativos de deuda, empresas asociadas", "7611"),
  ("Ingresos de valores representativos de deuda, otras partes vinculadas", "7612"),
  ("Ingresos de valores representativos de deuda, otras empresas", "7613"),
  ("Ingresos de créditos", "762"),
  ("Ingresos de créditos a largo plazo", "7620"),
  ("Ingresos de créditos a largo plazo, empresas del grupo", "76200"),
  ("Ingresos de créditos a largo plazo, empresas asociadas", "76201"),
  ("Ingresos de créditos a largo plazo, otras partes vinculadas", "76202"),
  ("Ingresos de créditos a largo plazo, otras empresas", "76203"),
  ("Ingresos de créditos a corto plazo", "7621"),
  ("Ingresos de créditos a corto plazo, empresas del grupo", "76210"),
  ("Ingresos de créditos a corto plazo, empresas asociadas", "76211"),
  ("Ingresos de créditos a corto plazo, otras partes vinculadas", "76212"),
  ("Ingresos de créditos a corto plazo, otras empresas", "76213"),
  ("Beneficios por valoración de instrumentos financieros por su valor razonable", "763"),
  ("Beneficios de cartera de negociación", "7630"),
  ("Beneficios de designados por la empresa", "7631"),
  ("Beneficios de activos financieros a valor razonable con cambios en el patrimonio neto", "7632"),
  ("Beneficios de instrumentos de cobertura", "7633"),
  ("Beneficios de otros instrumentos financieros", "7634"),
  ("Beneficios en participaciones y valores representativos de deuda", "766"),
  ("Beneficios en valores representativos de deuda a largo plazo, empresas del grupo", "7660"),
  ("Beneficios en valores representativos de deuda a largo plazo, empresas asociadas", "7661"),
  ("Beneficios en valores representativos de deuda a largo plazo, otras partes vinculadas", "7662"),
  ("Beneficios en participaciones y valores representativos de deuda a largo plazo, otras empresas", "7663"),
  ("Beneficios en participaciones y valores representativos de deuda a corto plazo, empresas del grupo", "7665"),
  ("Beneficios en participaciones y valores representativos de deuda a corto plazo, empresas asociadas", "7666"),
  ("Beneficios en valores representativos de deuda a corto plazo, otras partes vinculadas", "7667"),
  ("Beneficios en valores representativos de deuda a corto plazo, otras empresas", "7668"),
  ("Ingresos de activos afectos y de derechos de reembolso relativos a retribuciones a largo plazo", "767"),
  ("Diferencias positivas de cambio", "768"),
  ("Otros ingresos financieros", "769"),
  ("BENEFICIOS PROCEDENTES DE ACTIVOS NO CORRIENTES E INGRESOS EXCEPCIONALES", "77"),
  ("Beneficios procedentes del inmovilizado intangible", "770"),
  ("Beneficios procedentes del inmovilizado material", "771"),
  ("Beneficios procedentes de las inversiones inmobiliarias", "772"),
  ("Beneficios procedentes de participaciones a largo plazo en partes vinculadas", "773"),
  ("Beneficios procedentes de participaciones a largo plazo, empresas del grupo", "7733"),
  ("Beneficios procedentes de participaciones a largo plazo, empresas asociadas", "7734"),
  ("Beneficios procedentes de participaciones a largo plazo, otras partes vinculadas", "7735"),
  ("Diferencia negativa en combinaciones de negocios", "774"),
  ("Beneficios por operaciones con obligaciones propias", "775"),
  ("Ingresos excepcionales", "778"),
  ("EXCESOS Y APLICACIONES DE PROVISIONES Y DE PÉRDIDAS POR DETERIORO", "79"),
  ("Reversión del deterioro del inmovilizado intangible", "790"),
  ("Reversión del deterioro del inmovilizado material", "791"),
  ("Reversión del deterioro de las inversiones inmobiliarias", "792"),
  ("Reversión del deterioro de existencias", "793"),
  ("Reversión del deterioro de productos terminados y en curso de fabricación", "7930"),
  ("Reversión del deterioro de mercaderías", "7931"),
  ("Reversión del deterioro de materias primas", "7932"),
  ("Reversión del deterioro de otros aprovisionamientos", "7933"),
  ("Reversión del deterioro de créditos por operaciones comerciales", "794"),
  ("Exceso de provisiones", "795"),
  ("Exceso de provisión por retribuciones al personal", "7950"),
  ("Exceso de provisión para impuestos", "7951"),
  ("Exceso de provisión para otras responsabilidades", "7952"),
  ("Exceso de provisión por operaciones comerciales", "7954"),
  ("Exceso de provisión por contratos onerosos", "79544"),
  ("Exceso de provisión para otras operaciones comerciales", "79549"),
  ("Exceso de provisión para actuaciones medioambientales", "7955"),
  ("Exceso de provisión para reestructuraciones", "7956"),
  ("Exceso de provisión por transacciones con pagos basados en instrumentos de patrimonio", "7957"),
  ("Reversión del deterioro de participaciones y valores representativos de deuda a largo plazo", "796"),
  ("Reversión del deterioro de participaciones en instrumentos de patrimonio neto a largo plazo, empresas del grupo", "7960"),
  ("Reversión del deterioro de participaciones en instrumentos de patrimonio neto a largo plazo, empresas asociadas", "7961"),
  ("Reversión del deterioro de valores representativos de deuda a largo plazo, empresas del grupo", "7965"),
  ("Reversión del deterioro de valores representativos de deuda a largo plazo, empresas asociadas", "7966"),
  ("Reversión del deterioro de valores representativos de deuda a largo plazo, otras partes vinculadas", "7967"),
  ("Reversión del deterioro de valores representativos de deuda a largo plazo, otras empresas", "7968"),
  ("Reversión del deterioro de créditos a largo plazo", "797"),
  ("Reversión del deterioro de créditos a largo plazo, empresas del grupo", "7970"),
  ("Reversión del deterioro de créditos a largo plazo, empresas asociadas", "7971"),
  ("Reversión del deterioro de créditos a largo plazo, otras partes vinculadas", "7972"),
  ("Reversión del deterioro de créditos a largo plazo, otras empresas", "7973"),
  ("Reversión del deterioro de participaciones y valores representativos de deuda a corto plazo", "798"),
  ("Reversión del deterioro de participaciones en instrumentos de patrimonio neto a corto plazo, empresas del grupo", "7980"),
  ("Reversión del deterioro de participaciones en instrumentos de patrimonio neto a corto plazo, empresas asociadas", "7981"),
  ("Reversión del deterioro en valores representativos de deuda a corto plazo, empresas del grupo", "7985"),
  ("Reversión del deterioro en valores representativos de deuda a corto plazo, empresas asociadas", "7986"),
  ("Reversión del deterioro en valores representativos de deuda a corto plazo, otras partes vinculadas", "7987"),
  ("Reversión del deterioro en valores representativos de deuda a corto plazo, otras empresas", "7988"),
  ("Reversión del deterioro de créditos a corto plazo", "799"),
  ("Reversión del deterioro de créditos a corto plazo, empresas del grupo", "7990"),
  ("Reversión del deterioro de créditos a corto plazo, empresas asociadas", "7991"),
  ("Reversión del deterioro de créditos a corto plazo, otras partes vinculadas", "7992"),
  ("Reversión del deterioro de créditos a corto plazo, otras empresas", "7993"),
  ("GASTOS FINANCIEROS POR VALORACIÓN DE ACTIVOS Y PASIVOS", "80"),
  ("Pérdidas de activos financieros a valor razonable con cambios en el patrimonio neto", "800"),
  ("Transferencia de beneficios en activos financieros a valor razonable con cambios en el patrimonio neto", "802"),
  ("GASTOS EN OPERACIONES DE COBERTURA", "81"),
  ("Pérdidas por coberturas de flujos de efectivo", "810"),
  ("Pérdidas por coberturas de inversiones netas en un negocio en el extranjero", "811"),
  ("Transferencia de beneficios por coberturas de flujos de efectivo", "812"),
  ("Transferencia de beneficios por coberturas de inversiones netas en un negocio en el extranjero", "813"),
  ("GASTOS POR DIFERENCIAS DE CONVERSIÓN", "82"),
  ("Diferencias de conversión negativas", "820"),
  ("Transferencia de diferencias de conversión positivas", "821"),
  ("IMPUESTO SOBRE BENEFICIOS", "83"),
  ("Impuesto sobre beneficios", "830"),
  ("Impuesto corriente", "8300"),
  ("Impuesto diferido", "8301"),
  ("Ajustes negativos en la imposición sobre beneficios", "833"),
  ("Ingresos fiscales por diferencias permanentes", "834"),
  ("Ingresos fiscales por deducciones y bonificaciones", "835"),
  ("Transferencia de diferencias permanentes", "836"),
  ("Transferencia de deducciones y bonificaciones", "837"),
  ("Ajustes positivos en la imposición sobre beneficios", "838"),
  ("TRANSFERENCIAS DE SUBVENCIONES, DONACIONESY LEGADOS", "84"),
  ("Transferencia de subvenciones oficiales de capital", "840"),
  ("Transferencia de donaciones y legados de capital", "841"),
  ("Transferencia de otras subvenciones, donaciones y legados", "842"),
  ("GASTOS POR PÉRDIDAS ACTUARIALES Y AJUSTES EN LOS ACTIVOS POR RETRIBUCIONES A LARGO PLAZO DE PRESTACIÓN DEFINIDA", "85"),
  ("Pérdidas actuariales", "850"),
  ("Ajustes negativos en activos por retribuciones a largo plazo de prestación definida", "851"),
  ("GASTOS POR ACTIVOS NO CORRIENTES EN VENTA", "86"),
  ("Pérdidas en activos no corrientes y grupos enajenables de elementos mantenidos para la venta", "860"),
  ("Transferencia de beneficios en activos no corrientes y grupos enajenables de elementos mantenidos para la venta", "862"),
  ("GASTOS DE PARTICIPACIONES EN EMPRESAS DEL GRUPO O ASOCIADAS CON AJUSTES VALORATIVOS POSITIVOS PREVIOS", "89"),
  ("Deterioro de participaciones en el patrimonio, empresas del grupo", "891"),
  ("Deterioro de participaciones en el patrimonio, empresas asociadas", "892"),
  ("INGRESOS FINANCIEROS POR VALORACIÓN DE ACTIVOSY PASIVOS", "90"),
  ("Beneficios en activos financieros a valor razonable con cambios en el patrimonio neto", "900"),
  ("Transferencia de pérdidas de activos financieros a valor razonable con cambios en el patrimonio neto", "902"),
  ("INGRESOS EN OPERACIONES DE COBERTURA", "91"),
  ("Beneficios por coberturas de flujos de efectivo", "910"),
  ("Beneficios por coberturas de una inversión neta en un negocio en el extranjero", "911"),
  ("Transferencia de pérdidas por coberturas de flujos de efectivo", "912"),
  ("Transferencia de pérdidas por coberturas de una inversión neta en un negocio en el extranjero", "913"),
  ("INGRESOS POR DIFERENCIAS DE CONVERSIÓN", "92"),
  ("Diferencias de conversión positivas", "920"),
  ("Transferencia de diferencias de conversión negativas", "921"),
  ("INGRESOS POR SUBVENCIONES, DONACIONES Y LEGADOS", "94"),
  ("Ingresos de subvenciones oficiales de capital", "940"),
  ("Ingresos de donaciones y legados de capital", "941"),
  ("Ingresos de otras subvenciones, donaciones y legados", "942"),
  ("INGRESOS POR GANANCIAS ACTUARIALES Y AJUSTES EN LOS ACTIVOS POR RETRIBUCIONES A LARGO PLAZO DE PRESTACIÓN DEFINIDA", "95"),
  ("Ganancias actuariales", "950"),
  ("Ajustes positivos en activos por retribuciones a largo plazo de prestación definida", "951"),
  ("INGRESOS POR ACTIVOS NO CORRIENTES EN VENTA", "96"),
  ("Beneficios en activos no corrientes y grupos enajenables de elementos mantenidos para la venta", "960"),
  ("Transferencia de pérdidas en activos no corrientes y grupos enajenables de elementos mantenidos para la venta", "962"),
  ("INGRESOS DE PARTICIPACIONES EN EMPRESAS DEL GRUPO O ASOCIADAS CON AJUSTES VALORATIVOS NEGATIVOS PREVIOS", "99"),
  ("Recuperación de ajustes valorativos negativos previos, empresas del grupo", "991"),
  ("Recuperación de ajustes valorativos negativos previos, empresas asociadas", "992"),
  ("Transferencia por deterioro de ajustes valorativos negativos previos, empresas del grupo", "993"),
  ("Transferencia por deterioro de ajustes valorativos negativos previos, empresas asociadas", "994")
]

namespace Cuadro

/-- The loop body of `Cuadro::cargar_pgc`: create each listed account in
order, stopping at the first error (the Rust `?` operator), which leaves the
registry as mutated so far. -/
def cargarLista (q : Cuadro) : List (String × String) → Cuadro × Option CuadroError
  | [] => (q, none)
  | (nombre_cuenta, codigo_cuenta) :: resto =>
    match q.crear_cuenta nombre_cuenta codigo_cuenta with
    | (q1, none) => cargarLista q1 resto
    | (q1, some e) => (q1, some e)

/-- `Cuadro::cargar_pgc`: loads the whole PGC table when the registry is
empty, fails with `CuadroNoVacio` otherwise. -/
def cargar_pgc (q : Cuadro) : Cuadro × Option CuadroError :=
  if q.cuentas.length = 0 then cargarLista q CUENTAS_PGC
  else (q, some CuadroError.CuadroNoVacio)

end Cuadro

/-- The operations a caller can perform on a `Cuadro` (its public interface,
ignoring the read-only reports): used to quantify over every reachable
state. -/
inductive Op where
  | opCrearCuenta (nombre codigo : String) : Op
  | opCargarPgc : Op
  | opCrearAsiento (concepto : String) (fecha : Option Fecha)
      (debe haber : List Movimiento) (codigo : String) (hoy : Fecha) : Op
  | opPrintLibroMayor : Op

namespace Cuadro

/-- State effect of one operation (error results are discarded; on error the
state is whatever the operation left behind, as in the Rust code). -/
def step (q : Cuadro) : Op → Cuadro
  | Op.opCrearCuenta nombre codigo => (q.crear_cuenta nombre codigo).1
  | Op.opCargarPgc => (q.cargar_pgc).1
  | Op.opCrearAsiento concepto fecha debe haber codigo hoy =>
      q.crear_asiento concepto fecha debe haber codigo hoy
  | Op.opPrintLibroMayor => q.print_libro_mayor

/-- The state reached from `Cuadro::new` by a sequence of operations. -/
def run (ops : List Op) : Cuadro := ops.foldl step new

end Cuadro

/-- `Masa` (src/cuadro_contable/masa.rs). -/
inductive Masa where
  | ActivoCorriente : Masa
  | ActivoNoCorriente : Masa
  | PasivoCorriente : Masa
  | PasivoNoCorriente : Masa
  | Patrimonio : Masa
  | Ingreso : Masa
  | Gasto : Masa
deriving DecidableEq

/-- The capture of the unanchored regex `(\d{1})(\d{0,1})(\d{0,1})\d*` of
`interpretar_codigo`: the leftmost maximal run of digits in the string, or
`none` when the string has no digit (Rust's `\d` is a Unicode digit class;
account codes only contain ASCII digits, which is what `Char.isDigit`
tests). -/
def leadingDigitRun : List Char → Option (List Char)
  | [] => none
  | c :: resto =>
    if c.isDigit then some (c :: resto.takeWhile Char.isDigit)
    else leadingDigitRun resto

/-- The match of `interpretar_codigo` on `grupo` (first digit), `subgrupo`
(second digit, when present), `cuenta` (third digit, when present) and
`n_cuenta` (the whole digit run).  The Rust `match` over string literals is
rendered as a chain of equality tests with the same sequential semantics. -/
def interpretarGrupo (grupo : Char) (subgrupo cuenta : Option Char)
    (n_cuenta : List Char) : Option Masa :=
  if grupo = '1' then
    if subgrupo = some '0' ∨ subgrupo = some '1' ∨ subgrupo = some '2' ∨
        subgrupo = some '3' then some Masa.Patrimonio
    else if subgrupo = some '4' ∨ subgrupo = some '5' ∨ subgrupo = some '6' ∨
        subgrupo = some '7' ∨ subgrupo = some '8' then some Masa.PasivoNoCorriente
    else none
  else if grupo = '2' then some Masa.ActivoNoCorriente
  else if grupo = '3' then some Masa.ActivoCorriente
  else if grupo = '4' then
    if subgrupo = some '0' ∨ subgrupo = some '1' then some Masa.PasivoCorriente
    else if subgrupo = some '2' then some Masa.PasivoNoCorriente
    else if subgrupo = some '3' ∨ subgrupo = some '4' then some Masa.ActivoCorriente
    else if subgrupo = some '5' then some Masa.ActivoNoCorriente
    else if subgrupo = some '6' then
      if n_cuenta = ['4', '6', '0'] then some Masa.ActivoCorriente
      else if n_cuenta = ['4', '6', '5'] then some Masa.PasivoCorriente
      else none
    else if subgrupo = some '7' then
      if cuenta = some '0' ∨ cuenta = some '1' ∨ cuenta = some '2' ∨
          cuenta = some '3' ∨ cuenta = some '4' then some Masa.ActivoCorriente
      else if cuenta = some '5' ∨ cuenta = some '6' ∨ cuenta = some '7' then
        some Masa.PasivoCorriente
      else none
    else if subgrupo = some '8' then
      if cuenta = some '0' then some Masa.ActivoCorriente
      else if cuenta = some '5' then some Masa.PasivoCorriente
      else none
    else if subgrupo = some '9' then some Masa.PasivoCorriente
    else none
  else if grupo = '5' then
    if subgrupo = some '4' then some Masa.ActivoNoCorriente
    else if subgrupo = some '7' then some Masa.ActivoCorriente
    else none
  else if grupo = '6' then some Masa.Gasto
  else if grupo = '7' then some Masa.Ingreso
  else if grupo = '8' then some Masa.Gasto
  else if grupo = '9' then some Masa.Ingreso
  else none

/-- Dispatch of the captured digit run to `interpretarGrupo`, extracting the
second and third digits when present. -/
def interpretarRun : List Char → Option Masa
  | [] => none
  | [g] => interpretarGrupo g none none [g]
  | [g, s] => interpretarGrupo g (some s) none [g, s]
  | g :: s :: c :: resto => interpretarGrupo g (some s) (some c) (g :: s :: c :: resto)

/-- `interpretar_codigo` (src/cuadro_contable/masa.rs): when the regex finds
no digit run, `grupo` stays `""` and the final wildcard yields `None`. -/
def interpretar_codigo (codigo : String) : Option Masa :=
  match leadingDigitRun codigo.data with
  | none => none
  | some run => interpretarRun run

/-- Strict lexicographic comparison of two character lists (by code point):
certificate relation used to check that the PGC account codes are pairwise
distinct. -/
def lexLt : List Char → List Char → Bool
  | [], [] => false
  | [], _ :: _ => true
  | _ :: _, [] => false
  | a :: as, b :: bs =>
    if a.toNat < b.toNat then true
    else if a.toNat = b.toNat then lexLt as bs
    else false

/-- Adjacent strict increase under `lexLt`. -/
def crecienteLex : List (List Char) → Bool
  | [] => true
  | [_] => true
  | a :: b :: resto => lexLt a b && crecienteLex (b :: resto)

/-- The debit amounts the journal holds for a given account code, in journal
order: the lists `Cuenta::mayorizar_cuenta` is specified to produce. -/
def debeCuenta (codigo : String) (libro : List Asiento) : List Importe :=
  libro.flatMap
    (fun a => (a.debe.filter (fun m => decide (codigo = m.codigo_cuenta))).map Movimiento.importe)

/-- The credit amounts the journal holds for a given account code, in journal
order. -/
def haberCuenta (codigo : String) (libro : List Asiento) : List Importe :=
  libro.flatMap
    (fun a => (a.haber.filter (fun m => decide (codigo = m.codigo_cuenta))).map Movimiento.importe)

/-- The balance check as the claim words it: the sum of the debit amounts
equals the sum of the credit amounts, each amount rounded to 2 decimals. -/
def validarSpec (a : Asiento) : Bool :=
  decide ((a.debe.map (fun m => roundCents m.importe)).sum =
    (a.haber.map (fun m => roundCents m.importe)).sum)

/-- An entry whose credit side is empty while its debit side holds a single
zero movement: both sides total zero. -/
def asientoCojo : Asiento :=
  { debe := [{ importe := 0, codigo_cuenta := "0000", nombre_cuenta := "" }],
    haber := [], concepto := "apunte", fecha := 0, codigo := "1" }

/-- Registry with the two accounts of the spec's posting example. -/
def cuadro6 : Cuadro :=
  ((Cuadro.new.crear_cuenta "Caja" "0000").1.crear_cuenta "Bancos" "0001").1

/-- The example state after posting the balanced entry
`debe=[("0000",20.0)], haber=[("0001",20.0)]`. -/
def cuadro6a : Cuadro :=
  cuadro6.crear_asiento "compra equilibrada" none
    [{ importe := 20, codigo_cuenta := "0000", nombre_cuenta := "" }]
    [{ importe := 20, codigo_cuenta := "0001", nombre_cuenta := "" }] "A1" 0

/-- The example state after additionally posting the unbalanced entry
`debe=[("0000",20.0)], haber=[("0001",22.0)]`. -/
def cuadro6b : Cuadro :=
  cuadro6a.crear_asiento "compra desequilibrada" none
    [{ importe := 20, codigo_cuenta := "0000", nombre_cuenta := "" }]
    [{ importe := 22, codigo_cuenta := "0001", nombre_cuenta := "" }] "A2" 0

/-- A one-entry journal used to exercise entry replacement. -/
def cuadro3 : Cuadro :=
  Cuadro.new.crear_asiento "apertura" none
    [{ importe := 5, codigo_cuenta := "572", nombre_cuenta := "" }]
    [{ importe := 5, codigo_cuenta := "100", nombre_cuenta := "" }] "X" 0

/-! ### Helper lemmas -/

lemma sumaFoldl (l : List ℤ) : ∀ a : ℤ, l.foldl (fun x y => x + y) a = a + l.sum := by
  induction l with
  | nil => intro a; simp
  | cons x xs ih => intro a; simp only [List.foldl_cons, ih, List.sum_cons]; ring

lemma posicion_none {α : Type} (p : α → Bool) :
    ∀ l : List α, posicion p l = none ↔ ∀ a ∈ l, p a = false := by
  intro l
  induction l with
  | nil => simp [posicion]
  | cons a resto ih =>
    by_cases h : p a = true
    · simp [posicion, h]
    · have h' : p a = false := by simpa using h
      simp [posicion, h', ih]

lemma posicion_some {α : Type} (p : α → Bool) :
    ∀ (l : List α) (i : Nat), posicion p l = some i →
      ∃ pre x suf, l = pre ++ x :: suf ∧ pre.length = i ∧ p x = true ∧
        ∀ y ∈ pre, p y = false := by
  intro l
  induction l with
  | nil => intro i h; simp [posicion] at h
  | cons a resto ih =>
    intro i h
    by_cases hp : p a = true
    · simp [posicion, hp] at h
      exact ⟨[], a, resto, by simp, by simp [h], hp, by simp⟩
    · have hp' : p a = false := by simpa using hp
      simp [posicion, hp'] at h
      obtain ⟨j, hj, hji⟩ := h
      obtain ⟨pre, x, suf, hl, hlen, hx, hpre⟩ := ih j hj
      refine ⟨a :: pre, x, suf, by simp [hl], by simp [hlen, hji], hx, ?_⟩
      intro y hy
      rcases List.mem_cons.mp hy with rfl | hy
      · exact hp'
      · exact hpre y hy

lemma posicion_existe {α : Type} (p : α → Bool) (l : List α)
    (h : ∃ a ∈ l, p a = true) : ∃ i, posicion p l = some i := by
  cases hpos : posicion p l with
  | some i => exact ⟨i, rfl⟩
  | none =>
    obtain ⟨a, ha, hpa⟩ := h
    rw [posicion_none] at hpos
    rw [hpos a ha] at hpa
    cases hpa

lemma eraseIdx_en_medio {α : Type} (x : α) (suf : List α) :
    ∀ pre : List α, (pre ++ x :: suf).eraseIdx pre.length = pre ++ suf := by
  intro pre
  induction pre with
  | nil => simp
  | cons a pre ih => simpa using ih

lemma lexLt_irrefl : ∀ l, lexLt l l = false := by
  intro l
  induction l with
  | nil => rfl
  | cons a as ih => simp [lexLt, ih]

lemma lexLt_trans : ∀ a b c, lexLt a b = true → lexLt b c = true → lexLt a c = true := by
  intro a
  induction a with
  | nil =>
    intro b c hab hbc
    cases b with
    | nil => simp [lexLt] at hab
    | cons y ys =>
      cases c with
      | nil => simp [lexLt] at hbc
      | cons z zs => simp [lexLt]
  | cons x xs ih =>
    intro b c hab hbc
    cases b with
    | nil => simp [lexLt] at hab
    | cons y ys =>
      cases c with
      | nil => simp [lexLt] at hbc
      | cons z zs =>
        by_cases h1 : x.toNat < y.toNat
        · by_cases h2 : y.toNat < z.toNat
          · simp [lexLt, Nat.lt_trans h1 h2]
          · simp [lexLt, h2] at hbc
            by_cases h3 : y.toNat = z.toNat
            · simp [lexLt, h3 ▸ h1]
            · simp [h3] at hbc
        · simp [lexLt, h1] at hab
          by_cases h1' : x.toNat = y.toNat
          · simp [h1'] at hab
            by_cases h2 : y.toNat < z.toNat
            · simp [lexLt, h1' ▸ h2]
            · simp [lexLt, h2] at hbc
              by_cases h3 : y.toNat = z.toNat
              · simp [h3] at hbc
                have hxz : x.toNat = z.toNat := h1'.trans h3
                simp [lexLt, hxz, Nat.lt_irrefl]
                exact ih ys zs hab hbc
              · simp [h3] at hbc
          · simp [h1'] at hab

lemma crecienteLex_cola : ∀ a l, crecienteLex (a :: l) = true → crecienteLex l = true := by
  intro a l h
  cases l with
  | nil => rfl
  | cons b resto =>
    simp [crecienteLex] at h
    exact h.2

lemma crecienteLex_head : ∀ l a, crecienteLex (a :: l) = true → ∀ x ∈ l, lexLt a x = true := by
  intro l
  induction l with
  | nil => intro a _ x hx; cases hx
  | cons b resto ih =>
    intro a h x hx
    simp [crecienteLex] at h
    rcases List.mem_cons.mp hx with rfl | hx
    · exact h.1
    · exact lexLt_trans a b x h.1 (ih b h.2 x hx)

lemma crecienteLex_nodup : ∀ l, crecienteLex l = true → l.Nodup := by
  intro l
  induction l with
  | nil => intro; exact List.nodup_nil
  | cons a resto ih =>
    intro h
    refine List.nodup_cons.mpr ⟨?_, ih (crecienteLex_cola a resto h)⟩
    intro hmem
    have hlt := crecienteLex_head resto a h a hmem
    rw [lexLt_irrefl] at hlt
    cases hlt

set_option maxRecDepth 10000 in
lemma pgc_codigos_crecientes :
    crecienteLex ((CUENTAS_PGC.map Prod.snd).map String.data) = true := by decide

lemma pgc_codigos_nodup : (CUENTAS_PGC.map Prod.snd).Nodup :=
  (crecienteLex_nodup _ pgc_codigos_crecientes).of_map _

lemma crear_cuenta_libre {q : Cuadro} {n c : String} (h : q.find_cuenta c = none) :
    q.crear_cuenta n c = ({ q with cuentas := q.cuentas ++ [Cuenta.new n c] }, none) := by
  simp [Cuadro.crear_cuenta, h]

lemma crear_cuenta_dup {q : Cuadro} {n c : String} {cu : Cuenta}
    (h : q.find_cuenta c = some cu) :
    q.crear_cuenta n c =
      (q, some (CuadroError.CuentaDuplicada (cu.codigo ++ " ~ " ++ cu.nombre))) := by
  simp [Cuadro.crear_cuenta, h]

lemma cargarLista_ok : ∀ (l : List (String × String)) (q : Cuadro),
    (l.map Prod.snd).Nodup →
    (∀ p ∈ l, ∀ cu ∈ q.cuentas, cu.codigo ≠ p.2) →
    Cuadro.cargarLista q l =
      ({ q with cuentas := q.cuentas ++ l.map (fun p => Cuenta.new p.1 p.2) }, none) := by
  intro l
  induction l with
  | nil => intro q _ _; simp [Cuadro.cargarLista]
  | cons p resto ih =>
    intro q hnd hdis
    obtain ⟨n, c⟩ := p
    have hfind : q.find_cuenta c = none := by
      rw [Cuadro.find_cuenta, List.find?_eq_none]
      intro cu hcu
      have hne := hdis (n, c) (List.mem_cons_self _ _) cu hcu
      simpa using fun hcc => hne hcc.symm
    rw [List.map_cons] at hnd
    have hnd' := List.nodup_cons.mp hnd
    have hstep : Cuadro.cargarLista q ((n, c) :: resto) =
        Cuadro.cargarLista { q with cuentas := q.cuentas ++ [Cuenta.new n c] } resto := by
      rw [Cuadro.cargarLista, crear_cuenta_libre hfind]
    rw [hstep, ih _ hnd'.2 ?_]
    · simp
    · intro p2 hp2 cu hcu
      rcases List.mem_append.mp hcu with hcu | hcu
      · exact hdis p2 (List.mem_cons_of_mem _ hp2) cu hcu
      · rcases List.mem_singleton.mp hcu with rfl
        simp only [Cuenta.new]
        intro hcp
        exact hnd'.1 (by rw [hcp]; exact List.mem_map.mpr ⟨p2, hp2, rfl⟩)

lemma cargar_pgc_vacio (q : Cuadro) (h : q.cuentas = []) :
    q.cargar_pgc =
      ({ q with cuentas := CUENTAS_PGC.map (fun p => Cuenta.new p.1 p.2) }, none) := by
  rw [Cuadro.cargar_pgc, if_pos (by simp [h]),
    cargarLista_ok CUENTAS_PGC q pgc_codigos_nodup (by simp [h])]
  simp [h]

set_option maxRecDepth 10000 in
lemma pgc_longitud : CUENTAS_PGC.length = 902 := by decide

lemma cargar_pgc_novacio (q : Cuadro) (h : q.cuentas ≠ []) :
    q.cargar_pgc = (q, some CuadroError.CuadroNoVacio) := by
  rw [Cuadro.cargar_pgc, if_neg]
  simpa using h

lemma find?_append_izq {α : Type} (p : α → Bool) (l1 l2 : List α)
    (h : l1.find? p = none) : (l1 ++ l2).find? p = l2.find? p := by
  induction l1 with
  | nil => simp
  | cons a resto ih =>
    cases hp : p a with
    | true => rw [List.find?_cons, hp] at h; simp at h
    | false =>
      rw [List.find?_cons, hp] at h
      rw [List.cons_append, List.find?_cons, hp]
      exact ih h

lemma foldl_insertar_debe (f : Movimiento → Movimiento) (l : List Movimiento) :
    ∀ a : Asiento, l.foldl (fun a m => a.insertar_debe (f m)) a =
      { a with debe := a.debe ++ l.map f } := by
  induction l with
  | nil => intro a; simp
  | cons m resto ih =>
    intro a
    rw [List.foldl_cons, ih]
    simp [Asiento.insertar_debe]

lemma foldl_insertar_haber (f : Movimiento → Movimiento) (l : List Movimiento) :
    ∀ a : Asiento, l.foldl (fun a m => a.insertar_haber (f m)) a =
      { a with haber := a.haber ++ l.map f } := by
  induction l with
  | nil => intro a; simp
  | cons m resto ih =>
    intro a
    rw [List.foldl_cons, ih]
    simp [Asiento.insertar_haber]

lemma nuevoAsiento_eq (q : Cuadro) (concepto : String) (fecha : Option Fecha)
    (debe haber : List Movimiento) (codigo : String) (hoy : Fecha) :
    q.nuevoAsiento concepto fecha debe haber codigo hoy =
      { debe := debe.map (fun m => m.hidratar_cuenta q),
        haber := haber.map (fun m => m.hidratar_cuenta q),
        concepto := concepto, fecha := fecha.getD hoy, codigo := codigo } := by
  rw [Cuadro.nuevoAsiento]
  rw [foldl_insertar_debe, foldl_insertar_haber]
  cases fecha with
  | none => simp [Asiento.new, Asiento.setFecha, Asiento.setCodigo]
  | some f => simp [Asiento.new, Asiento.setFecha, Asiento.setCodigo]

lemma pasoDebe_fold (l : List Movimiento) :
    ∀ s : Cuenta, l.foldl Cuenta.pasoDebe s =
      { s with
        debe := s.debe ++
          (l.filter (fun m => decide (s.codigo = m.codigo_cuenta))).map Movimiento.importe,
        saldo := s.saldo +
          ((l.filter (fun m => decide (s.codigo = m.codigo_cuenta))).map Movimiento.importe).sum } := by
  induction l with
  | nil => intro s; simp
  | cons m resto ih =>
    intro s
    rw [List.foldl_cons]
    by_cases h : s.codigo = m.codigo_cuenta
    · have hstep : Cuenta.pasoDebe s m =
          { s with debe := s.debe ++ [m.importe], saldo := s.saldo + m.importe } := by
        simp [Cuenta.pasoDebe, h, Cuenta.incrementar_saldo]
      rw [hstep, ih]
      simp [List.filter_cons, h, add_assoc]
    · have hstep : Cuenta.pasoDebe s m = s := by simp [Cuenta.pasoDebe, h]
      rw [hstep, ih]
      simp [List.filter_cons, h]

lemma pasoHaber_fold (l : List Movimiento) :
    ∀ s : Cuenta, l.foldl Cuenta.pasoHaber s =
      { s with
        haber := s.haber ++
          (l.filter (fun m => decide (s.codigo = m.codigo_cuenta))).map Movimiento.importe,
        saldo := s.saldo -
          ((l.filter (fun m => decide (s.codigo = m.codigo_cuenta))).map Movimiento.importe).sum } := by
  induction l with
  | nil => intro s; simp
  | cons m resto ih =>
    intro s
    rw [List.foldl_cons]
    by_cases h : s.codigo = m.codigo_cuenta
    · have hstep : Cuenta.pasoHaber s m =
          { s with haber := s.haber ++ [m.importe], saldo := s.saldo - m.importe } := by
        simp [Cuenta.pasoHaber, h, Cuenta.reducir_saldo]
      rw [hstep, ih]
      simp [List.filter_cons, h, sub_sub]
    · have hstep : Cuenta.pasoHaber s m = s := by simp [Cuenta.pasoHaber, h]
      rw [hstep, ih]
      simp [List.filter_cons, h]

lemma mayorizar_fold (j : List Asiento) :
    ∀ s : Cuenta,
      j.foldl (fun s a => a.haber.foldl Cuenta.pasoHaber (a.debe.foldl Cuenta.pasoDebe s)) s =
        { s with
          debe := s.debe ++ debeCuenta s.codigo j,
          haber := s.haber ++ haberCuenta s.codigo j,
          saldo := s.saldo + (debeCuenta s.codigo j).sum - (haberCuenta s.codigo j).sum } := by
  induction j with
  | nil => intro s; simp [debeCuenta, haberCuenta]
  | cons a j ih =>
    intro s
    rw [List.foldl_cons, pasoDebe_fold, pasoHaber_fold, ih]
    obtain ⟨nom, cod, deb, hab, sal⟩ := s
    simp [debeCuenta, haberCuenta]
    ring

lemma mayorizar_spec (c : Cuenta) (j : List Asiento) :
    c.mayorizar_cuenta j =
      { nombre := c.nombre, codigo := c.codigo,
        debe := debeCuenta c.codigo j, haber := haberCuenta c.codigo j,
        saldo := (debeCuenta c.codigo j).sum - (haberCuenta c.codigo j).sum } := by
  simp only [Cuenta.mayorizar_cuenta]
  rw [mayorizar_fold]
  simp

lemma crear_asiento_cuentas (q : Cuadro) (concepto : String) (fecha : Option Fecha)
    (debe haber : List Movimiento) (codigo : String) (hoy : Fecha) :
    (q.crear_asiento concepto fecha debe haber codigo hoy).cuentas = q.cuentas := by
  rw [Cuadro.crear_asiento]
  cases h : posicion (fun v => v.codigo == codigo) q.libro_diario <;> simp [h]

lemma crear_cuenta_cuentas (q : Cuadro) (n c : String) :
    (q.crear_cuenta n c).1.cuentas = q.cuentas ∨
      (q.crear_cuenta n c).1.cuentas = q.cuentas ++ [Cuenta.new n c] := by
  rw [Cuadro.crear_cuenta]
  cases h : q.find_cuenta c <;> simp

/-- The per-account balance invariant: the stored balance is the sum of the
stored debit amounts minus the sum of the stored credit amounts. -/
def invSaldo (q : Cuadro) : Prop :=
  ∀ cu ∈ q.cuentas, cu.saldo = cu.debe.sum - cu.haber.sum

lemma invSaldo_crear_cuenta {q : Cuadro} (n c : String) (h : invSaldo q) :
    invSaldo (q.crear_cuenta n c).1 := by
  intro cu hcu
  rcases crear_cuenta_cuentas q n c with heq | heq
  · exact h cu (heq ▸ hcu)
  · rw [heq] at hcu
    rcases List.mem_append.mp hcu with hcu | hcu
    · exact h cu hcu
    · rcases List.mem_singleton.mp hcu with rfl
      simp [Cuenta.new]

lemma invSaldo_cargarLista : ∀ (l : List (String × String)) (q : Cuadro),
    invSaldo q → invSaldo (Cuadro.cargarLista q l).1 := by
  intro l
  induction l with
  | nil => intro q h; exact h
  | cons p resto ih =>
    intro q h
    rw [Cuadro.cargarLista]
    obtain ⟨n, c⟩ := p
    cases hcc : q.crear_cuenta n c with
    | mk q1 e =>
      have h1 : invSaldo q1 := by
        have := invSaldo_crear_cuenta n c h
        rw [hcc] at this
        exact this
      cases e with
      | none => exact ih q1 h1
      | some err => exact h1

lemma invSaldo_paso (q : Cuadro) (op : Op) (h : invSaldo q) : invSaldo (q.step op) := by
  cases op with
  | opCrearCuenta n c => exact invSaldo_crear_cuenta n c h
  | opCargarPgc =>
    rw [Cuadro.step, Cuadro.cargar_pgc]
    split
    · exact invSaldo_cargarLista CUENTAS_PGC q h
    · exact h
  | opCrearAsiento concepto fecha debe haber codigo hoy =>
    intro cu hcu
    rw [Cuadro.step, crear_asiento_cuentas] at hcu
    exact h cu hcu
  | opPrintLibroMayor =>
    intro cu hcu
    rw [Cuadro.step, Cuadro.print_libro_mayor] at hcu
    simp only [List.mem_map] at hcu
    obtain ⟨c0, _, rfl⟩ := hcu
    rw [mayorizar_spec]

lemma invSaldo_run_aux : ∀ (ops : List Op) (q : Cuadro),
    invSaldo q → invSaldo (ops.foldl Cuadro.step q) := by
  intro ops
  induction ops with
  | nil => intro q h; exact h
  | cons op resto ih =>
    intro q h
    rw [List.foldl_cons]
    exact ih _ (invSaldo_paso q op h)

lemma invSaldo_run (ops : List Op) : invSaldo (Cuadro.run ops) := by
  apply invSaldo_run_aux
  intro cu hcu
  cases hcu

lemma nodup_push {α : Type} {l : List α} {a : α} (h : l.Nodup) (ha : a ∉ l) :
    (l ++ [a]).Nodup := by
  induction l with
  | nil => simp
  | cons x resto ih =>
    rcases List.nodup_cons.mp h with ⟨hx, hr⟩
    rw [List.cons_append, List.nodup_cons]
    refine ⟨?_, ih hr (fun hm => ha (List.mem_cons_of_mem _ hm))⟩
    intro hmem
    rcases List.mem_append.mp hmem with hm | hm
    · exact hx hm
    · rcases List.mem_singleton.mp hm with rfl
      exact ha (List.mem_cons_self _ _)

/-- The registry invariant: account codes are pairwise distinct. -/
def invCodigos (q : Cuadro) : Prop := (q.cuentas.map Cuenta.codigo).Nodup

lemma find_cuenta_none_iff (q : Cuadro) (c : String) :
    q.find_cuenta c = none ↔ ∀ cu ∈ q.cuentas, cu.codigo ≠ c := by
  rw [Cuadro.find_cuenta, List.find?_eq_none]
  constructor
  · intro h cu hcu hc
    exact h cu hcu (by simp [hc])
  · intro h cu hcu hc
    exact h cu hcu (by simpa using (beq_iff_eq.mp hc).symm)

lemma invCodigos_crear_cuenta {q : Cuadro} (n c : String) (h : invCodigos q) :
    invCodigos (q.crear_cuenta n c).1 := by
  rw [Cuadro.crear_cuenta]
  cases hf : q.find_cuenta c with
  | some cu => exact h
  | none =>
    simp only [invCodigos, List.map_append]
    have hnotin : c ∉ q.cuentas.map Cuenta.codigo := by
      intro hmem
      rcases List.mem_map.mp hmem with ⟨cu, hcu, hc⟩
      exact (find_cuenta_none_iff q c).mp hf cu hcu hc
    simpa [Cuenta.new] using nodup_push h hnotin

lemma invCodigos_cargarLista : ∀ (l : List (String × String)) (q : Cuadro),
    invCodigos q → invCodigos (Cuadro.cargarLista q l).1 := by
  intro l
  induction l with
  | nil => intro q h; exact h
  | cons p resto ih =>
    intro q h
    rw [Cuadro.cargarLista]
    obtain ⟨n, c⟩ := p
    cases hcc : q.crear_cuenta n c with
    | mk q1 e =>
      have h1 : invCodigos q1 := by
        have := invCodigos_crear_cuenta n c h
        rw [hcc] at this
        exact this
      cases e with
      | none => exact ih q1 h1
      | some err => exact h1

lemma invCodigos_paso (q : Cuadro) (op : Op) (h : invCodigos q) : invCodigos (q.step op) := by
  cases op with
  | opCrearCuenta n c => exact invCodigos_crear_cuenta n c h
  | opCargarPgc =>
    rw [Cuadro.step, Cuadro.cargar_pgc]
    split
    · exact invCodigos_cargarLista CUENTAS_PGC q h
    · exact h
  | opCrearAsiento concepto fecha debe haber codigo hoy =>
    rw [invCodigos, Cuadro.step, crear_asiento_cuentas]
    exact h
  | opPrintLibroMayor =>
    rw [invCodigos, Cuadro.step, Cuadro.print_libro_mayor]
    simp only [List.map_map]
    have : (Cuenta.codigo ∘ fun c => c.mayorizar_cuenta q.libro_diario) = Cuenta.codigo := by
      funext c
      simp [mayorizar_spec]
    rw [this]
    exact h

lemma invCodigos_run (ops : List Op) : invCodigos (Cuadro.run ops) := by
  rw [Cuadro.run]
  have aux : ∀ (l : List Op) (q : Cuadro), invCodigos q → invCodigos (l.foldl Cuadro.step q) := by
    intro l
    induction l with
    | nil => intro q h; exact h
    | cons op resto ih =>
      intro q h
      rw [List.foldl_cons]
      exact ih _ (invCodigos_paso q op h)
  exact aux ops Cuadro.new (by simp [invCodigos, Cuadro.new])

set_option maxHeartbeats 1600000 in
lemma interpretarGrupo_n_indep (g : Char) (sg cu : Option Char) (n1 n2 : List Char)
    (h : ¬(g = '4' ∧ sg = some '6')) :
    interpretarGrupo g sg cu n1 = interpretarGrupo g sg cu n2 := by
  by_cases h1 : g = '1'
  · simp [interpretarGrupo, h1]
  by_cases h2 : g = '2'
  · simp [interpretarGrupo, h1, h2]
  by_cases h3 : g = '3'
  · simp [interpretarGrupo, h1, h2, h3]
  by_cases h4 : g = '4'
  · by_cases hs : sg = some '6'
    · exact absurd ⟨h4, hs⟩ h
    · simp [interpretarGrupo, h1, h2, h3, h4, hs]
  by_cases h5 : g = '5'
  · simp [interpretarGrupo, h1, h2, h3, h4, h5]
  by_cases h6 : g = '6'
  · simp [interpretarGrupo, h1, h2, h3, h4, h5, h6]
  by_cases h7 : g = '7'
  · simp [interpretarGrupo, h1, h2, h3, h4, h5, h6, h7]
  by_cases h8 : g = '8'
  · simp [interpretarGrupo, h1, h2, h3, h4, h5, h6, h7, h8]
  by_cases h9 : g = '9'
  · simp [interpretarGrupo, h1, h2, h3, h4, h5, h6, h7, h8, h9]
  · simp [interpretarGrupo, h1, h2, h3, h4, h5, h6, h7, h8, h9]

lemma interpretarRun_take (r : List Char) (h : r.take 2 ≠ ['4', '6']) :
    interpretarRun r = interpretarRun (r.take 3) := by
  match r, h with
  | [], _ => rfl
  | [g], _ => rfl
  | [g, s], _ => rfl
  | [g, s, c], _ => rfl
  | g :: s :: c :: d :: resto, h =>
    have h2 : ¬(g = '4' ∧ s = '6') := by
      intro hgs
      exact h (by simp [hgs.1, hgs.2])
    show interpretarGrupo g (some s) (some c) (g :: s :: c :: d :: resto) =
        interpretarGrupo g (some s) (some c) [g, s, c]
    exact interpretarGrupo_n_indep g (some s) (some c) _ _
      (fun hgs => h2 ⟨hgs.1, Option.some.inj hgs.2⟩)

lemma reduceSuma_cons (x : ℤ) (xs : List ℤ) :
    Asiento.reduceSuma (x :: xs) = some ((x :: xs).sum) := by
  rw [Asiento.reduceSuma, sumaFoldl, List.sum_cons]

/-! ### Claim theorems -/

/-- C1 (counterexample): the claim says `validar` returns true exactly when
the rounded debit total equals the rounded credit total; on an entry whose
credit side is empty and whose debit side totals zero both rounded totals are
equal (0 = 0), yet `validar` returns false, because the Rust `reduce` yields
`None` for the empty side and `Some(0.0)` for the other. -/
theorem C1_contraejemplo :
    validarSpec asientoCojo = true ∧ asientoCojo.validar = false := by decide

/-- C1 (amended): `validar` returns true exactly when either both sides are
empty, or both sides are nonempty and the sums of the per-movement amounts
rounded to 2 decimals coincide; when exactly one side is empty it returns
false even though both totals may be equal. -/
theorem C1_enmendado (a : Asiento) :
    a.validar = true ↔
      ((a.debe = [] ∧ a.haber = []) ∨
       (a.debe ≠ [] ∧ a.haber ≠ [] ∧
         (a.debe.map (fun m => roundCents m.importe)).sum =
           (a.haber.map (fun m => roundCents m.importe)).sum)) := by
  simp only [Asiento.validar]
  cases hd : a.debe with
  | nil =>
    cases hh : a.haber with
    | nil => simp [Asiento.reduceSuma]
    | cons y ys => simp [Asiento.reduceSuma, reduceSuma_cons]
  | cons x xs =>
    cases hh : a.haber with
    | nil => simp [Asiento.reduceSuma, reduceSuma_cons]
    | cons y ys => simp [reduceSuma_cons]

/-- C1 (witness): a balanced two-sided entry validates. -/
theorem C1_testigo :
    Asiento.validar
      { debe := [{ importe := 1, codigo_cuenta := "570", nombre_cuenta := "" }],
        haber := [{ importe := 1, codigo_cuenta := "700", nombre_cuenta := "" }],
        concepto := "venta", fecha := 0, codigo := "2" } = true :=
  (C1_enmendado _).mpr (Or.inr ⟨by decide, by decide, by decide⟩)

/-- C2: `mayorizar_cuenta` leaves the account's `debe` (resp. `haber`) list
holding exactly the amounts of the journal's debit (resp. credit) movements
whose account code matches, in journal order; the balance is the sum of the
debit list minus the sum of the credit list; and a second replay over the
same journal yields the same account. -/
theorem C2_mayorizar (c : Cuenta) (j : List Asiento) :
    (c.mayorizar_cuenta j).debe = debeCuenta c.codigo j ∧
    (c.mayorizar_cuenta j).haber = haberCuenta c.codigo j ∧
    (c.mayorizar_cuenta j).saldo =
      ((c.mayorizar_cuenta j).debe).sum - ((c.mayorizar_cuenta j).haber).sum ∧
    (c.mayorizar_cuenta j).mayorizar_cuenta j = c.mayorizar_cuenta j := by
  refine ⟨?_, ?_, ?_, ?_⟩ <;> simp [mayorizar_spec]

lemma crear_asiento_reemplaza {q : Cuadro} {codigo : String} {i : Nat}
    (concepto : String) (fecha : Option Fecha) (debe haber : List Movimiento) (hoy : Fecha)
    (hi : posicion (fun v => v.codigo == codigo) q.libro_diario = some i) :
    (q.crear_asiento concepto fecha debe haber codigo hoy).libro_diario =
      q.libro_diario.eraseIdx i ++
        [q.nuevoAsiento concepto fecha debe haber codigo hoy] := by
  simp only [Cuadro.crear_asiento, hi]

lemma crear_asiento_inserta {q : Cuadro} {codigo : String}
    (concepto : String) (fecha : Option Fecha) (debe haber : List Movimiento) (hoy : Fecha)
    (hn : posicion (fun v => v.codigo == codigo) q.libro_diario = none) :
    (q.crear_asiento concepto fecha debe haber codigo hoy).libro_diario =
      q.libro_diario ++ [q.nuevoAsiento concepto fecha debe haber codigo hoy] := by
  simp only [Cuadro.crear_asiento, hn]

/-- C3: when the journal already holds an entry with the given code (account
journals built through the API have pairwise-distinct entry codes), posting
with that code replaces it: the journal length is unchanged, the only entry
left with that code is the newly built one, and the newly built entry is
assembled from the given concept, date (today when absent) and hydrated
movements alone — no content of the old entry survives. -/
theorem C3_reemplazo (q : Cuadro) (concepto : String) (fecha : Option Fecha)
    (debe haber : List Movimiento) (codigo : String) (hoy : Fecha)
    (hnodup : (q.libro_diario.map Asiento.codigo).Nodup)
    (hmem : ∃ a ∈ q.libro_diario, a.codigo = codigo) :
    (q.crear_asiento concepto fecha debe haber codigo hoy).libro_diario.length =
      q.libro_diario.length ∧
    (q.crear_asiento concepto fecha debe haber codigo hoy).libro_diario.filter
        (fun a => a.codigo == codigo) =
      [q.nuevoAsiento concepto fecha debe haber codigo hoy] ∧
    q.nuevoAsiento concepto fecha debe haber codigo hoy =
      { debe := debe.map (fun m => m.hidratar_cuenta q),
        haber := haber.map (fun m => m.hidratar_cuenta q),
        concepto := concepto, fecha := fecha.getD hoy, codigo := codigo } := by
  obtain ⟨i, hi⟩ := posicion_existe (fun v => v.codigo == codigo) q.libro_diario
    (by obtain ⟨a, ha, hc⟩ := hmem; exact ⟨a, ha, by simp [hc]⟩)
  obtain ⟨pre, x, suf, hsplit, hlen, hx, hpre⟩ := posicion_some _ _ _ hi
  have herase : (q.crear_asiento concepto fecha debe haber codigo hoy).libro_diario =
      (pre ++ suf) ++ [q.nuevoAsiento concepto fecha debe haber codigo hoy] := by
    rw [crear_asiento_reemplaza concepto fecha debe haber hoy hi, hsplit, ← hlen,
      eraseIdx_en_medio]
  have hxc : x.codigo = codigo := by simpa using hx
  refine ⟨?_, ?_, nuevoAsiento_eq q concepto fecha debe haber codigo hoy⟩
  · rw [herase, hsplit]
    simp
  · rw [hsplit] at hnodup
    simp only [List.map_append, List.map_cons] at hnodup
    have hnd2 := List.nodup_append.mp hnodup
    have hnotin : x.codigo ∉ suf.map Asiento.codigo :=
      (List.nodup_cons.mp hnd2.2.1).1
    have hsuf : ∀ y ∈ suf, (y.codigo == codigo) = false := by
      intro y hy
      have hne : y.codigo ≠ codigo := by
        intro hcc
        exact hnotin (by rw [hxc, ← hcc]; exact List.mem_map_of_mem _ hy)
      simp [hne]
    have hnuevo : ((q.nuevoAsiento concepto fecha debe haber codigo hoy).codigo == codigo) = true := by
      rw [nuevoAsiento_eq]
      simp
    rw [herase, List.filter_append, List.filter_append]
    rw [List.filter_eq_nil_iff.mpr (fun a ha => by rw [hpre a ha]; simp),
      List.filter_eq_nil_iff.mpr (fun a ha => by rw [hsuf a ha]; simp)]
    simp [hnuevo]

/-- C3 (witness): replacing the single entry `X` of a one-entry journal
keeps the length at 1, leaves only the new entry under code `X`, and the new
entry is built from the given inputs. -/
theorem C3_testigo :
    (cuadro3.crear_asiento "cierre" none
        [{ importe := 5, codigo_cuenta := "700", nombre_cuenta := "" }]
        [{ importe := 5, codigo_cuenta := "572", nombre_cuenta := "" }]
        "X" 7).libro_diario.length = cuadro3.libro_diario.length ∧
    (cuadro3.crear_asiento "cierre" none
        [{ importe := 5, codigo_cuenta := "700", nombre_cuenta := "" }]
        [{ importe := 5, codigo_cuenta := "572", nombre_cuenta := "" }]
        "X" 7).libro_diario.filter (fun a => a.codigo == "X") =
      [cuadro3.nuevoAsiento "cierre" none
        [{ importe := 5, codigo_cuenta := "700", nombre_cuenta := "" }]
        [{ importe := 5, codigo_cuenta := "572", nombre_cuenta := "" }]
        "X" 7] ∧
    cuadro3.nuevoAsiento "cierre" none
        [{ importe := 5, codigo_cuenta := "700", nombre_cuenta := "" }]
        [{ importe := 5, codigo_cuenta := "572", nombre_cuenta := "" }]
        "X" 7 =
      { debe := ([{ importe := 5, codigo_cuenta := "700", nombre_cuenta := "" }] :
            List Movimiento).map (fun m => m.hidratar_cuenta cuadro3),
        haber := ([{ importe := 5, codigo_cuenta := "572", nombre_cuenta := "" }] :
            List Movimiento).map (fun m => m.hidratar_cuenta cuadro3),
        concepto := "cierre", fecha := (none : Option Fecha).getD 7, codigo := "X" } :=
  C3_reemplazo cuadro3 "cierre" none
    [{ importe := 5, codigo_cuenta := "700", nombre_cuenta := "" }]
    [{ importe := 5, codigo_cuenta := "572", nombre_cuenta := "" }]
    "X" 7 (by decide) (by decide)

/-- C4: loading the PGC into an empty registry succeeds and leaves exactly
902 accounts; loading into a non-empty registry fails with `CuadroNoVacio`
and changes nothing. -/
theorem C4_cargar_pgc (q : Cuadro) :
    (q.cuentas = [] →
      (q.cargar_pgc).2 = none ∧ (q.cargar_pgc).1.cuentas.length = 902) ∧
    (q.cuentas ≠ [] → q.cargar_pgc = (q, some CuadroError.CuadroNoVacio)) := by
  constructor
  · intro h
    rw [cargar_pgc_vacio q h]
    simp [pgc_longitud]
  · intro h
    exact cargar_pgc_novacio q h

/-- C4 (witness): loading into the fresh empty registry yields 902 accounts;
loading into a one-account registry fails and leaves the state unchanged. -/
theorem C4_testigo :
    ((Cuadro.new.cargar_pgc).2 = none ∧ (Cuadro.new.cargar_pgc).1.cuentas.length = 902) ∧
    (Cuadro.mk [Cuenta.new "test" "0000"] []).cargar_pgc =
      (Cuadro.mk [Cuenta.new "test" "0000"] [], some CuadroError.CuadroNoVacio) :=
  ⟨(C4_cargar_pgc Cuadro.new).1 rfl, (C4_cargar_pgc _).2 (by simp)⟩

/-- C5: `crear_cuenta` errs (with the duplicate-account error) exactly when
an account with the same code is already registered, in which case the state
is unchanged; otherwise it succeeds and `find_cuenta` then returns the new
account.  Consequently account codes stay pairwise distinct in every state
reachable through the public operations. -/
theorem C5_crear_cuenta (q : Cuadro) (n c : String) :
    (((q.crear_cuenta n c).2 ≠ none) ↔ ∃ cu ∈ q.cuentas, cu.codigo = c) ∧
    (∀ e, (q.crear_cuenta n c).2 = some e →
      ∃ s, e = CuadroError.CuentaDuplicada s) ∧
    ((q.crear_cuenta n c).2 ≠ none → (q.crear_cuenta n c).1 = q) ∧
    ((q.crear_cuenta n c).2 = none →
      (q.crear_cuenta n c).1.find_cuenta c = some (Cuenta.new n c)) ∧
    (∀ ops : List Op, ((Cuadro.run ops).cuentas.map Cuenta.codigo).Nodup) := by
  cases hf : q.find_cuenta c with
  | some cu =>
    rw [crear_cuenta_dup hf]
    have hmem : cu ∈ q.cuentas := List.mem_of_find?_eq_some hf
    have hcu : cu.codigo = c := by
      have h2 := List.find?_some hf
      have h3 : c = cu.codigo := by simpa using h2
      exact h3.symm
    exact ⟨⟨fun _ => ⟨cu, hmem, hcu⟩, fun _ => by simp⟩,
      fun e he => ⟨cu.codigo ++ " ~ " ++ cu.nombre, by simpa using he.symm⟩,
      fun _ => rfl,
      fun hnone => by simp at hnone,
      fun ops => invCodigos_run ops⟩
  | none =>
    rw [crear_cuenta_libre hf]
    refine ⟨⟨fun h => absurd rfl h, fun ⟨cu, hcu, hc⟩ => ?_⟩,
      fun e he => by simp at he,
      fun h => absurd rfl h,
      fun _ => ?_,
      fun ops => invCodigos_run ops⟩
    · exact absurd hc ((find_cuenta_none_iff q c).mp hf cu hcu)
    · show Cuadro.find_cuenta _ c = _
      rw [Cuadro.find_cuenta]
      have : (q.cuentas ++ [Cuenta.new n c]).find? (fun cu => c == cu.codigo) =
          [Cuenta.new n c].find? (fun cu => c == cu.codigo) :=
        find?_append_izq _ _ _ hf
      rw [this, List.find?_cons]
      simp [Cuenta.new]

/-- C5 (witness): on a registry holding the code `0000`, re-creating `0000`
fails with a duplicate error and leaves the state intact, while a fresh code
succeeds and becomes findable. -/
theorem C5_testigo :
    (((Cuadro.mk [Cuenta.new "test" "0000"] []).crear_cuenta "otra" "0000").2 ≠ none) ∧
    (((Cuadro.mk [Cuenta.new "test" "0000"] []).crear_cuenta "otra" "0000").1 =
      Cuadro.mk [Cuenta.new "test" "0000"] []) ∧
    (((Cuadro.mk [Cuenta.new "test" "0000"] []).crear_cuenta "otra" "0001").1.find_cuenta "0001" =
      some (Cuenta.new "otra" "0001")) := by
  refine ⟨?_, ?_, ?_⟩
  · exact (C5_crear_cuenta (Cuadro.mk [Cuenta.new "test" "0000"] []) "otra" "0000").1.mpr
      ⟨Cuenta.new "test" "0000", by decide, by decide⟩
  · exact (C5_crear_cuenta (Cuadro.mk [Cuenta.new "test" "0000"] []) "otra" "0000").2.2.1
      ((C5_crear_cuenta (Cuadro.mk [Cuenta.new "test" "0000"] []) "otra" "0000").1.mpr
        ⟨Cuenta.new "test" "0000", by decide, by decide⟩)
  · exact (C5_crear_cuenta (Cuadro.mk [Cuenta.new "test" "0000"] []) "otra" "0001").2.2.2.1
      (by decide)

/-- C6 (counterexample): the claim says the unbalanced posting
`debe=[("0000",20.0)], haber=[("0001",22.0)]` is rejected, i.e. not accepted
into the journal; in fact `crear_asiento` inserts it unconditionally — after
the two postings the journal holds 2 entries and the unbalanced one (code
`A2`) is present, merely failing `validar`. -/
theorem C6_contraejemplo :
    cuadro6b.libro_diario.length = 2 ∧
    (∃ a ∈ cuadro6b.libro_diario, a.codigo = "A2" ∧ a.validar = false) := by decide

/-- C6 (amended): posting the balanced example entry yields an entry that
validates; posting the unbalanced one also enters the journal but fails
validation (it is flagged as unbalanced when the journal is printed, not
refused). -/
theorem C6_enmendado :
    (∃ a ∈ cuadro6a.libro_diario, a.codigo = "A1" ∧ a.validar = true) ∧
    (∃ a ∈ cuadro6b.libro_diario, a.codigo = "A1" ∧ a.validar = true) ∧
    (∃ a ∈ cuadro6b.libro_diario, a.codigo = "A2" ∧ a.validar = false) ∧
    cuadro6a.libro_diario.length = 1 ∧ cuadro6b.libro_diario.length = 2 := by decide

/-- C7: in every state reachable from `Cuadro::new` through the public
operations, every registered account's balance equals the sum of its
recorded debit amounts minus the sum of its recorded credit amounts. -/
theorem C7_invariante_saldo (ops : List Op) :
    ∀ cu ∈ (Cuadro.run ops).cuentas, cu.saldo = cu.debe.sum - cu.haber.sum :=
  invSaldo_run ops

/-- C7 (witness): the invariant holds for the account created by a concrete
one-operation run. -/
theorem C7_testigo :
    (Cuenta.new "Caja" "570").saldo =
      (Cuenta.new "Caja" "570").debe.sum - (Cuenta.new "Caja" "570").haber.sum :=
  C7_invariante_saldo [Op.opCrearCuenta "Caja" "570"] (Cuenta.new "Caja" "570") (by decide)

/-- C8 (counterexample): the claim says two numeric codes with the same
first three digits classify identically (including the 460/465 exceptions);
but `460` is classified `ActivoCorriente` while `4600` — same first three
digits — is unclassifiable, because the 460/465 exception tests the whole
digit run, not its first three digits. -/
theorem C8_contraejemplo :
    interpretar_codigo "460" = some Masa.ActivoCorriente ∧
    interpretar_codigo "4600" = none := by decide

/-- C8 (amended): the classification depends only on the first three digits
of the leftmost digit run, except inside subgroup 46 where the whole run
must be exactly 460 or 465; and a code containing no digit is
unclassifiable. -/
theorem C8_enmendado :
    (∀ s : String, leadingDigitRun s.data = none → interpretar_codigo s = none) ∧
    (∀ s1 s2 : String, ∀ r1 r2 : List Char,
      leadingDigitRun s1.data = some r1 → leadingDigitRun s2.data = some r2 →
      r1.take 3 = r2.take 3 → r1.take 2 ≠ ['4', '6'] →
      interpretar_codigo s1 = interpretar_codigo s2) := by
  constructor
  · intro s h
    rw [interpretar_codigo, h]
  · intro s1 s2 r1 r2 h1 h2 ht h46
    have h46' : r2.take 2 ≠ ['4', '6'] := by
      have htake : r1.take 2 = r2.take 2 := by
        have hc := congrArg (List.take 2) ht
        simpa [List.take_take] using hc
      rw [← htake]
      exact h46
    rw [interpretar_codigo, interpretar_codigo, h1, h2]
    show interpretarRun r1 = interpretarRun r2
    rw [interpretarRun_take r1 h46, interpretarRun_take r2 h46', ht]

/-- C8 (witness): `572` and `5729` share their first three digits outside
subgroup 46 and classify identically; a digit-free code is unclassifiable. -/
theorem C8_testigo :
    interpretar_codigo "572" = interpretar_codigo "5729" ∧
    interpretar_codigo "hsjhuek" = none :=
  ⟨C8_enmendado.2 "572" "5729" ['5', '7', '2'] ['5', '7', '2', '9']
      (by decide) (by decide) (by decide) (by decide),
   C8_enmendado.1 "hsjhuek" (by decide)⟩

/-- C9: `crear_asiento` never touches the account registry: the `cuentas`
field (every account's code, name, lists and balance) is the same before
and after the call. -/
theorem C9_cuentas_intactas (q : Cuadro) (concepto : String) (fecha : Option Fecha)
    (debe haber : List Movimiento) (codigo : String) (hoy : Fecha) :
    (q.crear_asiento concepto fecha debe haber codigo hoy).cuentas = q.cuentas :=
  crear_asiento_cuentas q concepto fecha debe haber codigo hoy

/-- C10: when an entry with the given code exists, `crear_asiento` removes
the first such entry from its position and appends the new entry at the end:
the resulting journal is the remaining entries in their original relative
order followed by the new entry. -/
theorem C10_orden_reemplazo (q : Cuadro) (concepto : String) (fecha : Option Fecha)
    (debe haber : List Movimiento) (codigo : String) (hoy : Fecha)
    (hmem : ∃ a ∈ q.libro_diario, a.codigo = codigo) :
    ∃ pre x suf,
      q.libro_diario = pre ++ x :: suf ∧
      x.codigo = codigo ∧
      (∀ y ∈ pre, y.codigo ≠ codigo) ∧
      (q.crear_asiento concepto fecha debe haber codigo hoy).libro_diario =
        (pre ++ suf) ++ [q.nuevoAsiento concepto fecha debe haber codigo hoy] := by
  obtain ⟨i, hi⟩ := posicion_existe (fun v => v.codigo == codigo) q.libro_diario
    (by obtain ⟨a, ha, hc⟩ := hmem; exact ⟨a, ha, by simp [hc]⟩)
  obtain ⟨pre, x, suf, hsplit, hlen, hx, hpre⟩ := posicion_some _ _ _ hi
  refine ⟨pre, x, suf, hsplit, by simpa using hx, ?_, ?_⟩
  · intro y hy hc
    have := hpre y hy
    rw [hc] at this
    simp at this
  · rw [crear_asiento_reemplaza concepto fecha debe haber hoy hi, hsplit, ← hlen,
      eraseIdx_en_medio]

/-- C10 (witness): replacing the only entry of a one-entry journal yields
the decomposition with empty prefix and suffix. -/
theorem C10_testigo :
    ∃ pre x suf,
      cuadro3.libro_diario = pre ++ x :: suf ∧
      x.codigo = "X" ∧
      (∀ y ∈ pre, y.codigo ≠ "X") ∧
      (cuadro3.crear_asiento "reapertura" (some 9) [] [] "X" 3).libro_diario =
        (pre ++ suf) ++ [cuadro3.nuevoAsiento "reapertura" (some 9) [] [] "X" 3] :=
  C10_orden_reemplazo cuadro3 "reapertura" (some 9) [] [] "X" 3 (by decide)
